import Mathlib

/-!
Shallow embedding of the client handshake state machine of the KEMTLS rustls
fork, translated from src/client/hs.rs, together with the generated static
tables (generated/scheme_to_oid.rs, generated/pq_sigschemes.rs).

Cryptographic primitives (HKDF, HMAC, hashing, KEM encapsulation) are kept
symbolic: a value of type `SymBytes` is a term describing how a byte string
was produced.  Distinct constructors model distinct primitives, so equality
of terms is structural.  Message structs whose accessors live in modules not
present under src (msgs/handshake.rs) are modelled at accessor level: the
struct field holds the value the accessor returns.
-/

set_option maxRecDepth 10000

namespace Rustls

/-- Protocol versions that appear in the client handshake code. -/
inductive ProtocolVersion where
  | TLSv1_0
  | TLSv1_2
  | TLSv1_3
  | unknownVersion (n : Nat)
  deriving DecidableEq

/-- Handshake message types used by the client state machine. -/
inductive HType where
  | clientHello
  | serverHello
  | helloRetryRequest
  | encryptedExtensions
  | certificate
  | certificateRequest
  | certificateVerify
  | clientKeyExchange
  | serverKeyExchange
  | serverHelloDone
  | certificateStatus
  | finished
  | newSessionTicket
  | keyUpdate
  | endOfEarlyData
  deriving DecidableEq

/-- Alert descriptions emitted by the client handshake code. -/
inductive AlertDescription where
  | illegalParameter
  | decodeError
  | unsupportedExtension
  | missingExtension
  | handshakeFailure
  | protocolVersionAlert
  | badCertificate
  | decryptError
  | unexpectedMessage
  deriving DecidableEq

/-- Compression methods (only Null is legal). -/
inductive Compression where
  | null
  | otherCompression (n : Nat)
  deriving DecidableEq

/-- Extension type identifiers referenced by the handshake code. -/
inductive ExtensionType where
  | keyShare
  | preSharedKey
  | supportedVersions
  | ecPointFormats
  | sessionTicket
  | renegotiationInfo
  | extendedMasterSecret
  | serverName
  | namedGroups
  | signatureAlgorithms
  | statusRequest
  | sctRequest
  | alpn
  | earlyData
  | cookie
  | pskModes
  | otherExtension (n : Nat)
  deriving DecidableEq

/-- EC point formats (only Uncompressed is required). -/
inductive ECPointFormat where
  | uncompressed
  | otherFormat (n : Nat)
  deriving DecidableEq

/-- Named groups: classical and KEM codepoints used by the client code. -/
inductive NamedGroup where
  | x25519
  | secp256r1
  | kyber512
  | kyber768
  | otherGroup (n : Nat)
  deriving DecidableEq

/-- Hash algorithms attached to cipher suites. -/
inductive HashAlg where
  | sha256
  | sha384
  deriving DecidableEq

/-- Derivation kinds of the key schedule (key_schedule.rs SecretKind). -/
inductive SecretKind where
  | ClientEarlyTrafficSecret
  | ResumptionPSKBinderKey
  | ClientHandshakeTrafficSecret
  | ServerHandshakeTrafficSecret
  | ClientAuthenticatedHandshakeTrafficSecret
  | ServerAuthenticatedHandshakeTrafficSecret
  | ClientApplicationTrafficSecret
  | ServerApplicationTrafficSecret
  | ExporterMasterSecret
  | ResumptionMasterSecret
  deriving DecidableEq

/-- Content types of TLS records referenced by the handlers. -/
inductive ContentType where
  | changeCipherSpec
  | handshake
  | applicationData
  | alert
  deriving DecidableEq

/-- Error taxonomy of the client handshake code (error.rs TLSError). -/
inductive TLSError where
  | peerMisbehavedError (why : String)
  | peerIncompatibleError (why : String)
  | corruptMessagePayload (ct : ContentType)
  | inappropriateMessage
  | webPKIError (badDer : Bool)
  | noCertificatesPresented
  | decryptError
  deriving DecidableEq

/-- Symbolic byte strings.  Each constructor records which primitive produced
the bytes; structural equality models equality of the byte strings, and the
`snil`/`scons` constructors encode finite sequences of entries so that a
transcript buffer can appear under a hash constructor. -/
inductive SymBytes where
  | lit (bs : List Nat)
  | zeroes
  | emptyCtx
  | snil
  | scons (hd tl : SymBytes)
  | msgEnc (ht : HType) (body : SymBytes)
  | mhash (alg : HashAlg) (buf : SymBytes)
  | thash (alg : HashAlg) (buf : SymBytes)
  | extract (salt ikm : SymBytes)
  | expandLabel (prk : SymBytes) (lbl : String) (ctx : SymBytes)
  | deriveSecret (prk : SymBytes) (kind : SecretKind) (h : SymBytes)
  | ratchet (prk h : SymBytes)
  | hmac (key msg : SymBytes)
  | encapCt (pk : SymBytes)
  | encapSs (pk : SymBytes)
  | decapSs (priv : Nat) (ct : SymBytes)
  deriving DecidableEq

/-- Packs a list of transcript entries into a single symbolic term. -/
def packEntries (l : List SymBytes) : SymBytes :=
  l.foldr SymBytes.scons SymBytes.snil

/-- Label of the HKDF salt derivation between extract steps. -/
def lblDerived : String := "derived"

/-- Label of the finished-key expansion. -/
def lblFinished : String := "finished"

/-- Running transcript of handshake messages with a lazily bound hash
algorithm.  Modelled from the spec (4.C): hash_hs.rs is not under src; the
buffer keeps the wire encodings of the handshake bodies and the rollup
replaces the buffered initial ClientHello by its message hash. -/
structure HandshakeHash where
  alg : Option HashAlg
  buffer : List SymBytes
  deriving DecidableEq

/-- Appends the wire encoding of a handshake message to the transcript. -/
def HandshakeHash.addEntry (t : HandshakeHash) (e : SymBytes) : HandshakeHash :=
  { t with buffer := t.buffer ++ [e] }

/-- Binds the transcript hash algorithm. -/
def HandshakeHash.startHash (t : HandshakeHash) (a : HashAlg) : HandshakeHash :=
  { t with alg := some a }

/-- Replaces the buffered initial ClientHello with its message hash
(RFC 8446 section 4.4.1, called on HelloRetryRequest). -/
def HandshakeHash.rollupForHrr (t : HandshakeHash) : HandshakeHash :=
  { t with buffer := [SymBytes.mhash (t.alg.getD HashAlg.sha256) (packEntries t.buffer)] }

/-- Digest of everything buffered so far. -/
def HandshakeHash.getCurrentHash (t : HandshakeHash) : SymBytes :=
  SymBytes.thash (t.alg.getD HashAlg.sha256) (packEntries t.buffer)

/-- Digest of the buffer extended by extra bytes, under a given algorithm
(used for the PSK binder and the early traffic secret). -/
def HandshakeHash.getHashGiven (t : HandshakeHash) (a : HashAlg) (extra : List SymBytes) : SymBytes :=
  SymBytes.thash a (packEntries (t.buffer ++ extra))

/-- Whether a derivation kind names a server-side traffic secret. -/
def SecretKind.forServer : SecretKind → Bool
  | .ServerHandshakeTrafficSecret => true
  | .ServerAuthenticatedHandshakeTrafficSecret => true
  | .ServerApplicationTrafficSecret => true
  | _ => false

/-- Central key schedule state.  Modelled from the spec (3, 4.D):
key_schedule.rs is not under src.  It holds the HKDF chain state and the
materialised current traffic and exporter secrets. -/
structure KeySchedule where
  hashAlg : HashAlg
  currentSecret : SymBytes
  currentClientTrafficSecret : SymBytes
  currentServerTrafficSecret : SymBytes
  currentExporterSecret : SymBytes
  deriving DecidableEq

/-- Modelled from the spec: KeySchedule::new, initial state with a hash-sized
zero PRK and empty materialised secrets. -/
def KeySchedule.new (a : HashAlg) : KeySchedule :=
  { hashAlg := a
    currentSecret := SymBytes.zeroes
    currentClientTrafficSecret := SymBytes.zeroes
    currentServerTrafficSecret := SymBytes.zeroes
    currentExporterSecret := SymBytes.zeroes }

/-- Modelled from the spec: input_secret, HKDF-Extract with the salt derived
from the current PRK and the new input keying material. -/
def KeySchedule.inputSecret (ks : KeySchedule) (ikm : SymBytes) : KeySchedule :=
  { ks with currentSecret :=
      SymBytes.extract (SymBytes.expandLabel ks.currentSecret lblDerived SymBytes.emptyCtx) ikm }

/-- Modelled from the spec: input_empty, HKDF-Extract of an all-zero IKM. -/
def KeySchedule.inputEmpty (ks : KeySchedule) : KeySchedule :=
  ks.inputSecret SymBytes.zeroes

/-- Modelled from the spec: derive, HKDF-Expand-Label over the current PRK
with a label per kind and a transcript hash. -/
def KeySchedule.derive (ks : KeySchedule) (k : SecretKind) (h : SymBytes) : SymBytes :=
  SymBytes.deriveSecret ks.currentSecret k h

/-- Modelled from the spec: derive_with_hash, the KEMTLS ratchet of the HKDF
state after the implicit encapsulation step. -/
def KeySchedule.deriveWithHash (ks : KeySchedule) (h : SymBytes) : KeySchedule :=
  { ks with currentSecret := SymBytes.ratchet ks.currentSecret h }

/-- Modelled from the spec: sign_finish computes the verify_data as an HMAC
under the finished key expanded from the current traffic secret of the side
the kind names (the current server traffic secret for server kinds). -/
def KeySchedule.signFinish (ks : KeySchedule) (k : SecretKind) (h : SymBytes) : SymBytes :=
  SymBytes.hmac
    (SymBytes.expandLabel
      (if k.forServer then ks.currentServerTrafficSecret else ks.currentClientTrafficSecret)
      lblFinished SymBytes.emptyCtx)
    h

/-- Modelled from the spec: sign_verify_data, the PSK binder HMAC under the
finished key expanded from an explicit base key. -/
def KeySchedule.signVerifyData (base h : SymBytes) : SymBytes :=
  SymBytes.hmac (SymBytes.expandLabel base lblFinished SymBytes.emptyCtx) h

end Rustls

namespace Rustls

/-- End-entity certificate as seen through the webpki collaborator interface
(spec 6): parseability, KEM-ness, public key and whether encapsulation and
public-key extraction succeed.  The encapsulation outputs are the symbolic
terms `encapCt pk` and `encapSs pk`. -/
structure Cert where
  blob : List Nat
  parseOk : Bool
  isKem : Bool
  pk : SymBytes
  pkOk : Bool
  encapOk : Bool
  deriving DecidableEq

/-- TLS 1.3 Certificate message payload at accessor level
(msgs/handshake.rs is not under src): context bytes, converted chain,
duplicate and unknown entry-extension flags, end-entity OCSP and SCTs, and
the wire encoding of the body. -/
structure CertificatePayloadTLS13 where
  context : List Nat
  entries : List Cert
  anyEntryDup : Bool
  anyEntryUnknown : Bool
  eeOcsp : Option (List Nat)
  eeScts : Option (List (List Nat))
  bodyEnc : SymBytes
  deriving DecidableEq

/-- Key share entry sent by the server (group and opaque payload). -/
structure KeyShareEntry where
  group : NamedGroup
  payload : SymBytes
  deriving DecidableEq

/-- Client key-exchange private state kept in offered_key_shares: group,
public half, private handle, and whether decapsulation succeeds. -/
structure ClientKeyShare where
  group : NamedGroup
  pubkey : SymBytes
  priv : Nat
  decapOk : Bool
  deriving DecidableEq

/-- Decapsulation against a client key share (suites.rs collaborator). -/
def ClientKeyShare.decapsulate (k : ClientKeyShare) (ct : SymBytes) : Option SymBytes :=
  if k.decapOk then some (SymBytes.decapSs k.priv ct) else none

/-- What the client offered in its ClientHello (client/common.rs). -/
structure ClientHelloDetails where
  sentExtensions : List ExtensionType
  offeredKeyShares : List ClientKeyShare
  deriving DecidableEq

/-- Finds the offered key share for a group (ClientHelloDetails::find_key_share). -/
def ClientHelloDetails.findKeyShare (h : ClientHelloDetails) (g : NamedGroup) : Option ClientKeyShare :=
  h.offeredKeyShares.find? (fun k => k.group = g)

/-- Whether a share for the group was offered (ClientHelloDetails::has_key_share). -/
def ClientHelloDetails.hasKeyShare (h : ClientHelloDetails) (g : NamedGroup) : Bool :=
  (h.findKeyShare g).isSome

/-- Whether the server sent an extension type the client did not offer and
that is not in the allowed unsolicited list
(ClientHelloDetails::server_sent_unsolicited_extensions). -/
def ClientHelloDetails.serverSentUnsolicitedExtensions
    (h : ClientHelloDetails) (received allowed : List ExtensionType) : Bool :=
  received.any (fun t => ¬ h.sentExtensions.contains t ∧ ¬ allowed.contains t)

/-- ServerHello payload at accessor level. -/
structure ServerHelloPayload where
  legacyVersion : ProtocolVersion
  supportedVersions : Option ProtocolVersion
  cipherSuite : Nat
  compressionMethod : Compression
  extTypes : List ExtensionType
  hasDupExt : Bool
  pskIndex : Option Nat
  keyShare : Option KeyShareEntry
  ecpoints : Option (List ECPointFormat)
  alpn : Option (List Nat)
  bodyEnc : SymBytes
  deriving DecidableEq

/-- HelloRetryRequest payload at accessor level. -/
structure HelloRetryRequest where
  cookie : Option (List Nat)
  reqGroup : Option NamedGroup
  hasUnknownExt : Bool
  hasDupExt : Bool
  supportedVersions : Option ProtocolVersion
  cipherSuite : Nat
  bodyEnc : SymBytes
  deriving DecidableEq

/-- EncryptedExtensions payload at accessor level. -/
structure EncryptedExtensions where
  extTypes : List ExtensionType
  hasDupExt : Bool
  alpn : Option (List Nat)
  earlyDataOffered : Bool
  bodyEnc : SymBytes
  deriving DecidableEq

/-- Finished payload: the received verify_data. -/
structure FinishedPayload where
  verifyData : SymBytes
  deriving DecidableEq

/-- Supported cipher suite: identifier, transcript hash, and whether it is a
TLS 1.3 suite (suites.rs collaborator, modelled from the spec). -/
structure CipherSuite where
  suite : Nat
  hashAlg : HashAlg
  usable13 : Bool
  deriving DecidableEq

/-- Modelled from the spec: a resuming suite is resumable to the chosen suite
when the transcript hash algorithms agree (suites.rs can_resume_to). -/
def CipherSuite.canResumeTo (a b : CipherSuite) : Bool :=
  a.hashAlg = b.hashAlg

/-- Modelled from the spec: usable_for_version distinguishes TLS 1.3 suites
from TLS 1.2 suites. -/
def CipherSuite.usableForVersion (s : CipherSuite) (v : ProtocolVersion) : Bool :=
  match v with
  | .TLSv1_3 => s.usable13
  | _ => ¬ s.usable13

/-- Cached session value relevant to the client handshake (persist.rs). -/
structure ResumingSession where
  version : ProtocolVersion
  cipherSuite : Nat
  masterSecret : SymBytes
  ticket : List Nat
  maxEarlyDataSize : Nat
  deriving DecidableEq

/-- Certificate-chain verifier collaborator, as data so that outcomes stay
decidable.  `specVerifier` is modelled from the spec (7): an empty chain
where one is required yields NoCertificatesPresented. -/
inductive VerifierModel where
  | alwaysOk
  | specVerifier
  | rejectWith (e : TLSError)
  deriving DecidableEq

/-- Runs a verifier model on a chain. -/
def VerifierModel.run (v : VerifierModel) (chain : List Cert) : Option TLSError :=
  match v with
  | .alwaysOk => none
  | .specVerifier => if chain.isEmpty then some TLSError.noCertificatesPresented else none
  | .rejectWith e => some e

/-- Client configuration fields consulted by the handshake code.  The
assembled ClientHello encoding is abstracted as `clientHelloBytes`. -/
structure Config where
  supports12 : Bool
  supports13 : Bool
  cipherSuites : List CipherSuite
  enableTickets : Bool
  enableEarlyData : Bool
  ctLogsPresent : Bool
  alpnProtocols : List (List Nat)
  verifier : VerifierModel
  clientHelloBytes : List Nat
  deriving DecidableEq

/-- Looks up a cipher suite by identifier (ClientSessionImpl::find_cipher_suite). -/
def Config.findCipherSuite (c : Config) (id : Nat) : Option CipherSuite :=
  c.cipherSuites.find? (fun s => s.suite = id)

/-- Whether a protocol version is enabled (ClientConfig::supports_version). -/
def Config.supportsVersion (c : Config) (v : ProtocolVersion) : Bool :=
  match v with
  | .TLSv1_2 => c.supports12
  | .TLSv1_3 => c.supports13
  | _ => false

/-- Accumulated server-authentication material (client/common.rs). -/
structure ServerCertDetails where
  certChain : List Cert
  ocsp : Option (List Nat)
  scts : Option (List (List Nat))
  deriving DecidableEq

/-- Observable actions of a handler, recorded in call order. -/
inductive Event where
  | addedToTranscript (e : SymBytes)
  | sentMsg (ht : Option HType) (encrypted : Bool) (underKey : Option SymBytes)
  | sentAlert (a : AlertDescription)
  | injectedSecret (ikm : SymBytes)
  | ratcheted (h : SymBytes)
  | derivedKey (k : SecretKind) (h : SymBytes)
  | installedEncrypter (key : SymBytes)
  | installedDecrypter (key : SymBytes)
  | encapsulated (pk : SymBytes)
  | verifiedChain (chain : List Cert)
  | savedKxHint (g : NamedGroup)
  | startedTraffic
  deriving DecidableEq

/-- Shared session state threaded through the handlers.  Per-state
scratchpads (HandshakeDetails, ServerCertDetails) are kept inline so that
successor states can be composed as plain functions. -/
structure Session where
  cfg : Config
  hello : ClientHelloDetails
  transcript : HandshakeHash
  ks : Option KeySchedule
  negotiatedVersion : Option ProtocolVersion
  suite : Option CipherSuite
  earlyDataEnabled : Bool
  earlyDataAccepted : Bool
  earlyTraffic : Bool
  sentTls13FakeCcs : Bool
  joinerEmpty : Bool
  resumingSession : Option ResumingSession
  hashAtClientRecvdServerHello : SymBytes
  encrypter : Option SymBytes
  decrypter : Option SymBytes
  alpnProtocol : Option (List Nat)
  serverCert : ServerCertDetails
  alerts : List AlertDescription
  events : List Event
  weEncrypting : Bool
  trafficStarted : Bool
  deriving DecidableEq

/-- Successor states of the client state machine. -/
inductive NextSt where
  | expectServerHelloOrHelloRetryRequest
  | expectServerHello
  | expectTLS13EncryptedExtensions
  | expectTLS13CertificateOrCertReq
  | expectTLS13Certificate
  | expectTLS13CertificateVerify
  | expectTLS13Finished
  | expectTLS13Traffic
  deriving DecidableEq

/-- Result of running a handler: a successor state, an error, or a panic of
the underlying process (assert, unwrap, unreachable). -/
inductive HandlerOutcome where
  | next (st : NextSt)
  | fail (e : TLSError)
  | panicked (msg : String)
  deriving DecidableEq

end Rustls

namespace Rustls

/-- Reason string of the 0-RTT downgrade error. -/
def rsnChoseV12ZeroRtt : String := "server chose v1.2 when offering 0-rtt"

/-- Reason string of the v1.2-with-v1.3-extension error. -/
def rsnV12UsingV13Ext : String := "server chose v1.2 using v1.3 extension"

/-- Reason string of the unsupported-version error. -/
def rsnNoSupportedVersions : String := "server does not support TLS v1.2/v1.3"

/-- Reason string of the non-null compression error. -/
def rsnNonNullCompression : String := "server chose non-Null compression"

/-- Reason string of the duplicate ServerHello extension error. -/
def rsnDupExt : String := "server sent duplicate extensions"

/-- Reason string of the unsolicited ServerHello extension error. -/
def rsnUnsolicitedExt : String := "server sent unsolicited extension"

/-- Reason string of the missing-uncompressed-points error. -/
def rsnNoUncompressedPoints : String := "server does not support uncompressed points"

/-- Reason string of the non-offered cipher suite error. -/
def rsnNonOfferedSuite : String := "server chose non-offered ciphersuite"

/-- Reason string of the varied cipher suite error. -/
def rsnVariedSuite : String := "server varied selected ciphersuite"

/-- Reason string of the unusable cipher suite error. -/
def rsnUnusableSuite : String := "server chose unusable ciphersuite for version"

/-- Reason string of the cleartext extension error. -/
def rsnCleartextExt : String := "server sent unexpected cleartext ext"

/-- Reason string of the non-offered ALPN error. -/
def rsnNonOfferedAlpn : String := "server sent non-offered ALPN protocol"

/-- Reason string of the incompatible resumption suite error. -/
def rsnResumeIncompatSuite : String := "server resuming incompatible suite"

/-- Reason string of the invalid PSK index error. -/
def rsnInvalidPsk : String := "server selected invalid psk"

/-- Reason string of the unoffered PSK error. -/
def rsnUnofferedPsk : String := "server selected unoffered psk"

/-- Reason string of the missing key share error. -/
def rsnMissingKeyShare : String := "missing key share"

/-- Reason string of the wrong key-share group error. -/
def rsnWrongGroup : String := "wrong group for key share"

/-- Reason string of the failed key exchange error. -/
def rsnKxFailed : String := "key exchange failed"

/-- Reason string of the pending-fragment epoch change error. -/
def rsnKeysChanged : String := "keys changed with pending hs fragment"

/-- Reason string of the HRR already-offered-group error. -/
def rsnHrrOurGroup : String := "server requested hrr with our group"

/-- Reason string of the HRR unsupported-group error. -/
def rsnHrrBadGroup : String := "server requested hrr with bad group"

/-- Reason string of the HRR empty-cookie error. -/
def rsnHrrEmptyCookie : String := "server requested hrr with empty cookie"

/-- Reason string of the HRR unknown-extension error. -/
def rsnHrrUnknownExt : String := "server sent hrr with unhandled extension"

/-- Reason string of the HRR duplicate-extension error. -/
def rsnHrrDupExt : String := "server send duplicate hrr extensions"

/-- Reason string of the HRR no-changes error. -/
def rsnHrrNoChanges : String := "server requested hrr with no changes"

/-- Reason string of the HRR bad-version error. -/
def rsnHrrBadVersion : String := "server requested unsupported version in hrr"

/-- Reason string of the HRR non-offered cipher suite error. -/
def rsnHrrBadCs : String := "server requested unsupported cs in hrr"

/-- Reason string of the duplicate EncryptedExtensions error. -/
def rsnDupEncExt : String := "server sent duplicate encrypted extensions"

/-- Reason string of the unsolicited EncryptedExtensions error. -/
def rsnUnsolicitedEncExt : String := "server sent unsolicited encrypted extension"

/-- Reason string of the inappropriate EncryptedExtensions error. -/
def rsnInappropriateEncExt : String := "server sent inappropriate encrypted extension"

/-- Reason string of the early-data-without-resumption error. -/
def rsnEarlyWithoutResume : String := "server sent early data extension without resumption"

/-- Reason string of the bad certificate chain extension error. -/
def rsnBadChainExt : String := "bad cert chain extensions"

/-- Reason string of the invalid SCT list error. -/
def rsnInvalidSct : String := "server sent invalid SCT list"

/-- Reason string of the unsolicited SCT list error. -/
def rsnUnsolicitedSct : String := "server sent unsolicited SCT list"

/-- Panic message of the assert in emit_client_hello_for_retry. -/
def panicRetry : String := "No retryrequest allowed for testing pqtls"

/-- Panic message of the unreachable TLS 1.2 branch after ServerHello. -/
def panicTls12 : String := "unreachable: TLS 1.2 branch after ServerHello"

/-- Panic message of get_key_schedule on an unset schedule. -/
def panicNoKeySchedule : String := "unwrap failed: key schedule not set"

/-- Panic message of negotiated_version.unwrap on an unset version. -/
def panicNoVersion : String := "unwrap failed: negotiated version not set"

/-- Panic message of indexing the end-entity certificate of an empty chain. -/
def panicIndexEmptyChain : String := "index out of bounds: empty certificate chain"

/-- Panic message of unwrapping a webpki certificate parse failure. -/
def panicWebpkiParse : String := "unwrap failed: EndEntityCert parse error"

/-- Panic message of expecting the end-entity public key. -/
def panicNoPk : String := "could not get PK"

/-- Panic message of unwrapping a failed encapsulation. -/
def panicEncap : String := "unwrap failed: encapsulate error"

/-- Panic message of unwrapping check_aligned_handshake. -/
def panicAligned : String := "unwrap failed: pending handshake fragment"

/-- Panic message of unwrapping a missing resuming suite. -/
def panicResumeSuite : String := "unwrap failed: resuming suite not found"

/-- Panic message of unwrapping a missing resuming session. -/
def panicNoResume : String := "unwrap failed: resuming session not set"

/-- Extensions the client accepts in plaintext in the ServerHello. -/
def allowedPlaintextExts : List ExtensionType :=
  [ExtensionType.keyShare, ExtensionType.preSharedKey, ExtensionType.supportedVersions]

/-- Extensions offered by the client but disallowed in TLS 1.3. -/
def disallowedTls13Exts : List ExtensionType :=
  [ExtensionType.ecPointFormats, ExtensionType.sessionTicket,
   ExtensionType.renegotiationInfo, ExtensionType.extendedMasterSecret]

/-- Unsolicited extensions tolerated in the ServerHello. -/
def allowedUnsolicitedExts : List ExtensionType := [ExtensionType.renegotiationInfo]

/-- Modelled from the spec: the key-exchange groups the build supports
(suites.rs KeyExchange::supported_groups is not under src). -/
def supportedGroups : List NamedGroup := [NamedGroup.kyber512, NamedGroup.x25519]

/-- Appends an event to the session trace. -/
def Session.push (s : Session) (e : Event) : Session :=
  { s with events := s.events ++ [e] }

/-- Appends a handshake message to the transcript (hs_transcript.add_message). -/
def Session.addMsg (s : Session) (ht : HType) (body : SymBytes) : Session :=
  { s with transcript := s.transcript.addEntry (SymBytes.msgEnc ht body)
           events := s.events ++ [Event.addedToTranscript (SymBytes.msgEnc ht body)] }

/-- Queues a handshake message to the record layer (send_msg), recording the
write key in force at the time of sending. -/
def Session.sendHs (s : Session) (ht : HType) (encrypted : Bool) : Session :=
  s.push (Event.sentMsg (some ht) encrypted s.encrypter)

/-- Queues a ChangeCipherSpec record (send_msg, unencrypted). -/
def Session.sendCcs (s : Session) : Session :=
  s.push (Event.sentMsg none false s.encrypter)

/-- Sends a fatal alert (send_fatal_alert). -/
def Session.sendFatalAlert (s : Session) (a : AlertDescription) : Session :=
  { s with alerts := s.alerts ++ [a], events := s.events ++ [Event.sentAlert a] }

/-- Installs a write key (set_message_encrypter). -/
def Session.setMessageEncrypter (s : Session) (k : SymBytes) : Session :=
  { s with encrypter := some k, events := s.events ++ [Event.installedEncrypter k] }

/-- Installs a read key (set_message_decrypter). -/
def Session.setMessageDecrypter (s : Session) (k : SymBytes) : Session :=
  { s with decrypter := some k, events := s.events ++ [Event.installedDecrypter k] }

/-- Sends an illegal_parameter alert and builds the PeerMisbehavedError
(hs.rs illegal_param). -/
def illegalParam (s : Session) (why : String) : Session × HandlerOutcome :=
  (s.sendFatalAlert AlertDescription.illegalParameter,
   HandlerOutcome.fail (TLSError.peerMisbehavedError why))

/-- Outcome of an internal handshake step. -/
inductive StepRes where
  | ok
  | err (e : TLSError)
  | panicked (msg : String)
  deriving DecidableEq

end Rustls

namespace Rustls

/-- Sends a dummy ChangeCipherSpec once for middlebox compatibility
(hs.rs emit_fake_ccs). -/
def emitFakeCcs (s : Session) : Session :=
  if s.sentTls13FakeCcs then s
  else { s.sendCcs with sentTls13FakeCcs := true }

/-- Records the negotiated ALPN protocol and rejects a non-offered one
(hs.rs process_alpn_protocol). -/
def processAlpnProtocol (s : Session) (proto : Option (List Nat)) : Session × Option TLSError :=
  let s := { s with alpnProtocol := proto }
  if s.alpnProtocol.isSome ∧ ¬ s.cfg.alpnProtocols.contains (s.alpnProtocol.getD []) then
    (s.sendFatalAlert AlertDescription.illegalParameter,
     some (TLSError.peerMisbehavedError rsnNonOfferedAlpn))
  else (s, none)

/-- Rejects plaintext ServerHello extensions outside the allowed set
(hs.rs validate_server_hello_tls13). -/
def validateServerHelloTLS13 (s : Session) (sh : ServerHelloPayload) : Session × Option TLSError :=
  if sh.extTypes.any (fun t => ¬ allowedPlaintextExts.contains t) then
    (s.sendFatalAlert AlertDescription.unsupportedExtension,
     some (TLSError.peerMisbehavedError rsnCleartextExt))
  else (s, none)

/-- Effective server version: the supported_versions extension refines a
legacy_version of 1.2 (hs.rs ExpectServerHello::handle). -/
def serverVersionOf (sh : ServerHelloPayload) : ProtocolVersion :=
  if sh.legacyVersion = ProtocolVersion.TLSv1_2 then
    sh.supportedVersions.getD sh.legacyVersion
  else sh.legacyVersion

/-- Whether the session suite can resume from the given suite
(hs.rs compatible_suite). -/
def compatibleSuite (s : Session) (resumingSuite : Option CipherSuite) : Bool :=
  match resumingSuite with
  | some rs =>
    match s.suite with
    | some suite => suite.canResumeTo rs
    | none => true
  | none => false

/-- Key-share and key-schedule setup after a TLS 1.3 ServerHello
(hs.rs ExpectServerHello::start_handshake_traffic).  The PSK arm keeps the
schedule seeded at binder time; the fresh arm discards early data and
creates a schedule over the suite hash with an all-zero input. -/
def startHandshakeTraffic (s : Session) (scs : CipherSuite) (sh : ServerHelloPayload) :
    Session × StepRes :=
  let pskStep : Session × StepRes :=
    match sh.pskIndex with
    | some selectedPsk =>
      match s.resumingSession with
      | some resuming =>
        match s.cfg.findCipherSuite resuming.cipherSuite with
        | none => (s, StepRes.panicked panicResumeSuite)
        | some resumeFrom =>
          if ¬ resumeFrom.canResumeTo scs then
            (s, StepRes.err (TLSError.peerMisbehavedError rsnResumeIncompatSuite))
          else if selectedPsk ≠ 0 then
            (s, StepRes.err (TLSError.peerMisbehavedError rsnInvalidPsk))
          else (s, StepRes.ok)
      | none => (s, StepRes.err (TLSError.peerMisbehavedError rsnUnofferedPsk))
    | none =>
      ({ s with earlyDataEnabled := false, earlyTraffic := false,
                ks := some (KeySchedule.new scs.hashAlg).inputEmpty,
                resumingSession := none }, StepRes.ok)
  match pskStep with
  | (s, StepRes.err e) => (s, StepRes.err e)
  | (s, StepRes.panicked m) => (s, StepRes.panicked m)
  | (s, StepRes.ok) =>
    match sh.keyShare with
    | none =>
      (s.sendFatalAlert AlertDescription.missingExtension,
       StepRes.err (TLSError.peerMisbehavedError rsnMissingKeyShare))
    | some theirShare =>
      match s.hello.findKeyShare theirShare.group with
      | none =>
        (s.sendFatalAlert AlertDescription.illegalParameter,
         StepRes.err (TLSError.peerMisbehavedError rsnWrongGroup))
      | some ourShare =>
        match ourShare.decapsulate theirShare.payload with
        | none => (s, StepRes.err (TLSError.peerMisbehavedError rsnKxFailed))
        | some shared =>
          let s := s.push (Event.savedKxHint theirShare.group)
          match s.ks with
          | none => (s, StepRes.panicked panicNoKeySchedule)
          | some ks =>
            let ks := ks.inputSecret shared
            let s := { s.push (Event.injectedSecret shared) with ks := some ks }
            if !s.joinerEmpty then
              (s.sendFatalAlert AlertDescription.illegalParameter,
               StepRes.err (TLSError.peerMisbehavedError rsnKeysChanged))
            else
              let h := s.transcript.getCurrentHash
              let s := { s with hashAtClientRecvdServerHello := h }
              let readKey := ks.derive SecretKind.ServerHandshakeTrafficSecret h
              let s := s.push (Event.derivedKey SecretKind.ServerHandshakeTrafficSecret h)
              let s := s.setMessageDecrypter readKey
              let ks := { ks with currentServerTrafficSecret := readKey }
              let s := { s with ks := some ks }
              if !s.joinerEmpty then
                (s.sendFatalAlert AlertDescription.illegalParameter,
                 StepRes.err (TLSError.peerMisbehavedError rsnKeysChanged))
              else
                let writeKey := ks.derive SecretKind.ClientHandshakeTrafficSecret h
                let s := s.push (Event.derivedKey SecretKind.ClientHandshakeTrafficSecret h)
                let s := s.setMessageEncrypter writeKey
                (s, StepRes.ok)

/-- Common tail of ExpectServerHello::handle after version negotiation:
compression, extension and suite validation, transcript start, and for
TLS 1.3 the key-schedule setup; the TLS 1.2 continuation is unreachable. -/
def handleServerHelloRest (s : Session) (sh : ServerHelloPayload) : Session × HandlerOutcome :=
  if sh.compressionMethod ≠ Compression.null then
    illegalParam s rsnNonNullCompression
  else if sh.hasDupExt then
    (s.sendFatalAlert AlertDescription.decodeError,
     HandlerOutcome.fail (TLSError.peerMisbehavedError rsnDupExt))
  else if s.hello.serverSentUnsolicitedExtensions sh.extTypes allowedUnsolicitedExts then
    (s.sendFatalAlert AlertDescription.unsupportedExtension,
     HandlerOutcome.fail (TLSError.peerMisbehavedError rsnUnsolicitedExt))
  else
    let alpnStep :=
      if ¬ (s.negotiatedVersion = some ProtocolVersion.TLSv1_3) then
        processAlpnProtocol s sh.alpn
      else (s, none)
    match alpnStep with
    | (s, some e) => (s, HandlerOutcome.fail e)
    | (s, none) =>
      let pointsBad :=
        match sh.ecpoints with
        | some fmts => !fmts.contains ECPointFormat.uncompressed
        | none => false
      if pointsBad then
        (s.sendFatalAlert AlertDescription.handshakeFailure,
         HandlerOutcome.fail (TLSError.peerMisbehavedError rsnNoUncompressedPoints))
      else
        match s.cfg.findCipherSuite sh.cipherSuite with
        | none =>
          (s.sendFatalAlert AlertDescription.handshakeFailure,
           HandlerOutcome.fail (TLSError.peerMisbehavedError rsnNonOfferedSuite))
        | some scs =>
          if s.suite.isSome ∧ s.suite ≠ some scs then
            illegalParam s rsnVariedSuite
          else
            let s := { s with suite := some scs }
            match s.negotiatedVersion with
            | none => (s, HandlerOutcome.panicked panicNoVersion)
            | some version =>
              if ¬ scs.usableForVersion version then
                illegalParam s rsnUnusableSuite
              else
                let s := { s with transcript := s.transcript.startHash scs.hashAlg }
                let s := s.addMsg HType.serverHello sh.bodyEnc
                if s.negotiatedVersion = some ProtocolVersion.TLSv1_3 then
                  match validateServerHelloTLS13 s sh with
                  | (s, some e) => (s, HandlerOutcome.fail e)
                  | (s, none) =>
                    match startHandshakeTraffic s scs sh with
                    | (s, StepRes.err e) => (s, HandlerOutcome.fail e)
                    | (s, StepRes.panicked m) => (s, HandlerOutcome.panicked m)
                    | (s, StepRes.ok) =>
                      let s := emitFakeCcs s
                      (s, HandlerOutcome.next NextSt.expectTLS13EncryptedExtensions)
                else (s, HandlerOutcome.panicked panicTls12)

/-- Handler of the ExpectServerHello state (hs.rs 804-925): version
negotiation, including the 0-RTT downgrade rejection, then the common tail. -/
def handleServerHello (s : Session) (sh : ServerHelloPayload) : Session × HandlerOutcome :=
  let sv := serverVersionOf sh
  if sv = ProtocolVersion.TLSv1_3 ∧ s.cfg.supports13 then
    handleServerHelloRest { s with negotiatedVersion := some ProtocolVersion.TLSv1_3 } sh
  else if sv = ProtocolVersion.TLSv1_2 ∧ s.cfg.supports12 then
    if s.earlyDataEnabled ∧ s.earlyTraffic then
      (s, HandlerOutcome.fail (TLSError.peerMisbehavedError rsnChoseV12ZeroRtt))
    else
      let s := { s with negotiatedVersion := some ProtocolVersion.TLSv1_2 }
      if sh.supportedVersions.isSome then
        illegalParam s rsnV12UsingV13Ext
      else handleServerHelloRest s sh
  else
    (s.sendFatalAlert AlertDescription.protocolVersionAlert,
     HandlerOutcome.fail (TLSError.peerIncompatibleError rsnNoSupportedVersions))

end Rustls

namespace Rustls

/-- Fills in the PSK binder of a resuming ClientHello and seeds the key
schedule with the resumption master secret (hs.rs fill_in_psk_binder).  The
patched binder bytes live inside the abstracted ClientHello encoding. -/
def fillInPskBinder (s : Session) (binderPlaintext : SymBytes) : Session × Option String :=
  match s.resumingSession with
  | none => (s, some panicNoResume)
  | some resuming =>
    match s.cfg.findCipherSuite resuming.cipherSuite with
    | none => (s, some panicResumeSuite)
    | some rs =>
      let suiteHash := rs.hashAlg
      let handshakeHash := s.transcript.getHashGiven suiteHash [binderPlaintext]
      let emptyHash := SymBytes.thash suiteHash (packEntries [])
      let ks := (KeySchedule.new suiteHash).inputSecret resuming.masterSecret
      let baseKey := ks.derive SecretKind.ResumptionPSKBinderKey emptyHash
      let _realBinder := KeySchedule.signVerifyData baseKey handshakeHash
      ({ s with ks := some ks }, none)

/-- Emits a ClientHello, fresh or in reply to a HelloRetryRequest
(hs.rs emit_client_hello_for_retry).  The first statement of the source is
an assert that no retry request is present, so the retry path panics.  The
assembly of versions, key shares and extensions only shapes the emitted
encoding, abstracted as cfg.clientHelloBytes; the session cache lookup is
abstracted as the resumingSession already stored in the session. -/
def emitClientHelloForRetry (s : Session) (retryreq : Option HelloRetryRequest) :
    Session × HandlerOutcome :=
  if retryreq.isSome then (s, HandlerOutcome.panicked panicRetry)
  else
    let resumeVersion :=
      match s.resumingSession with
      | some r => r.version
      | none => ProtocolVersion.unknownVersion 0
    let ticket :=
      match s.resumingSession with
      | some r => r.ticket
      | none => []
    let resumingSuite :=
      match s.resumingSession with
      | some r => s.cfg.findCipherSuite r.cipherSuite
      | none => none
    let fillBinder :=
      s.cfg.supports13 ∧ s.cfg.enableTickets ∧ resumeVersion = ProtocolVersion.TLSv1_3
        ∧ ticket ≠ [] ∧ compatibleSuite s resumingSuite
    let maxEarly :=
      match s.resumingSession with
      | some r => r.maxEarlyDataSize
      | none => 0
    let s :=
      if fillBinder ∧ s.cfg.enableEarlyData ∧ 0 < maxEarly then
        { s with earlyDataEnabled := true }
      else s
    let binderStep :=
      if fillBinder then fillInPskBinder s (SymBytes.lit s.cfg.clientHelloBytes)
      else (s, none)
    match binderStep with
    | (s, some m) => (s, HandlerOutcome.panicked m)
    | (s, none) =>
      let s := s.addMsg HType.clientHello (SymBytes.lit s.cfg.clientHelloBytes)
      let s := s.sendHs HType.clientHello false
      let nextSt : HandlerOutcome :=
        if s.cfg.supports13 then
          HandlerOutcome.next NextSt.expectServerHelloOrHelloRetryRequest
        else HandlerOutcome.next NextSt.expectServerHello
      if s.earlyDataEnabled then
        let s := emitFakeCcs s
        match resumingSuite with
        | none => (s, HandlerOutcome.panicked panicResumeSuite)
        | some rs =>
          let chHash := s.transcript.getHashGiven rs.hashAlg []
          match s.ks with
          | none => (s, HandlerOutcome.panicked panicNoKeySchedule)
          | some ks =>
            let earlyKey := ks.derive SecretKind.ClientEarlyTrafficSecret chHash
            let s := s.push (Event.derivedKey SecretKind.ClientEarlyTrafficSecret chHash)
            let s := s.setMessageEncrypter earlyKey
            let s := { s with earlyTraffic := true, weEncrypting := true }
            (s, nextSt)
      else (s, nextSt)

/-- Handler of a HelloRetryRequest in the
ExpectServerHelloOrHelloRetryRequest state
(hs.rs ExpectServerHelloOrHelloRetryRequest::handle_hello_retry_request). -/
def handleHelloRetryRequest (s : Session) (hrr : HelloRetryRequest) : Session × HandlerOutcome :=
  let hasCookie := hrr.cookie.isSome
  if ¬ hasCookie ∧ ((hrr.reqGroup.map (fun g => s.hello.hasKeyShare g)).getD false) then
    illegalParam s rsnHrrOurGroup
  else if (match hrr.reqGroup with
           | some g => !supportedGroups.contains g
           | none => false) then
    illegalParam s rsnHrrBadGroup
  else if hasCookie ∧ (hrr.cookie.getD []).isEmpty then
    illegalParam s rsnHrrEmptyCookie
  else if hrr.hasUnknownExt then
    (s.sendFatalAlert AlertDescription.unsupportedExtension,
     HandlerOutcome.fail (TLSError.peerIncompatibleError rsnHrrUnknownExt))
  else if hrr.hasDupExt then
    illegalParam s rsnHrrDupExt
  else if ¬ hasCookie ∧ hrr.reqGroup.isNone then
    illegalParam s rsnHrrNoChanges
  else
    match hrr.supportedVersions with
    | some ProtocolVersion.TLSv1_3 =>
      let s := { s with negotiatedVersion := some ProtocolVersion.TLSv1_3 }
      match s.cfg.findCipherSuite hrr.cipherSuite with
      | none => illegalParam s rsnHrrBadCs
      | some cs =>
        let s :=
          if s.suite.isSome ∧ s.suite ≠ some cs then s else { s with suite := some cs }
        let s := { s with transcript := (s.transcript.startHash cs.hashAlg).rollupForHrr }
        let s := s.addMsg HType.helloRetryRequest hrr.bodyEnc
        let s := if s.earlyDataEnabled then { s with earlyDataEnabled := false } else s
        emitClientHelloForRetry s (some hrr)
    | _ => illegalParam s rsnHrrBadVersion

/-- Validation of EncryptedExtensions (hs.rs validate_encrypted_extensions):
duplicates, unsolicited extensions, and extensions inappropriate in an
encrypted context are fatal. -/
def validateEncryptedExtensions (s : Session) (ee : EncryptedExtensions) :
    Session × Option TLSError :=
  if ee.hasDupExt then
    (s.sendFatalAlert AlertDescription.decodeError,
     some (TLSError.peerMisbehavedError rsnDupEncExt))
  else if s.hello.serverSentUnsolicitedExtensions ee.extTypes [] then
    (s.sendFatalAlert AlertDescription.unsupportedExtension,
     some (TLSError.peerMisbehavedError rsnUnsolicitedEncExt))
  else if ee.extTypes.any
      (fun t => allowedPlaintextExts.contains t ∨ disallowedTls13Exts.contains t) then
    (s.sendFatalAlert AlertDescription.unsupportedExtension,
     some (TLSError.peerMisbehavedError rsnInappropriateEncExt))
  else (s, none)

/-- Handler of the ExpectTLS13EncryptedExtensions state (hs.rs 1224-1282). -/
def handleEncryptedExtensions (s : Session) (ee : EncryptedExtensions) :
    Session × HandlerOutcome :=
  let s := s.addMsg HType.encryptedExtensions ee.bodyEnc
  match validateEncryptedExtensions s ee with
  | (s, some e) => (s, HandlerOutcome.fail e)
  | (s, none) =>
    match processAlpnProtocol s ee.alpn with
    | (s, some e) => (s, HandlerOutcome.fail e)
    | (s, none) =>
      if s.resumingSession.isSome then
        let wasEarlyTraffic := s.earlyTraffic
        let s :=
          if wasEarlyTraffic then
            if ee.earlyDataOffered then { s with earlyDataAccepted := true }
            else { s with earlyDataEnabled := false, earlyTraffic := false }
          else s
        if wasEarlyTraffic ∧ ¬ s.earlyTraffic then
          match s.ks with
          | none => (s, HandlerOutcome.panicked panicNoKeySchedule)
          | some ks =>
            let writeKey :=
              ks.derive SecretKind.ClientHandshakeTrafficSecret s.hashAtClientRecvdServerHello
            let s := s.push
              (Event.derivedKey SecretKind.ClientHandshakeTrafficSecret
                s.hashAtClientRecvdServerHello)
            let s := s.setMessageEncrypter writeKey
            let s := { s with ks := some { ks with currentClientTrafficSecret := writeKey } }
            (s, HandlerOutcome.next NextSt.expectTLS13Finished)
        else (s, HandlerOutcome.next NextSt.expectTLS13Finished)
      else
        if ee.earlyDataOffered then
          (s, HandlerOutcome.fail (TLSError.peerMisbehavedError rsnEarlyWithoutResume))
        else (s, HandlerOutcome.next NextSt.expectTLS13CertificateOrCertReq)

end Rustls

namespace Rustls

/-- Whether an SCT list is trivially invalid (hs.rs sct_list_is_invalid). -/
def sctListIsInvalid (scts : List (List Nat)) : Bool :=
  scts.isEmpty ∨ scts.any (fun sct => sct.isEmpty)

/-- Maps a certificate error to the alert sent before returning it
(hs.rs send_cert_error_alert). -/
def sendCertErrorAlert (s : Session) (err : TLSError) : Session :=
  match err with
  | TLSError.webPKIError true => s.sendFatalAlert AlertDescription.decodeError
  | TLSError.peerMisbehavedError _ => s.sendFatalAlert AlertDescription.illegalParameter
  | _ => s.sendFatalAlert AlertDescription.badCertificate

/-- KEMTLS implicit authentication (hs.rs ExpectTLS13Certificate::emit_clientkx):
encapsulate to the end-entity key, emit the ClientKeyExchange, inject the
shared secret, ratchet with derive_with_hash, then derive and install the
authenticated-handshake traffic keys.  The debug assert on is_kem_cert is
compiled out of release builds; the unwraps surface as panics. -/
def emitClientkxKem (s : Session) : Session × Option String :=
  match s.serverCert.certChain with
  | [] => (s, some panicIndexEmptyChain)
  | cert :: _ =>
    if !cert.parseOk then (s, some panicWebpkiParse)
    else if !cert.pkOk then (s, some panicNoPk)
    else if !cert.encapOk then (s, some panicEncap)
    else
      let ct := SymBytes.encapCt cert.pk
      let sharedSecret := SymBytes.encapSs cert.pk
      let s := s.push (Event.encapsulated cert.pk)
      let s := s.addMsg HType.clientKeyExchange ct
      let s := s.sendHs HType.clientKeyExchange true
      match s.ks with
      | none => (s, some panicNoKeySchedule)
      | some ks =>
        let ks := ks.inputSecret sharedSecret
        let s := { s.push (Event.injectedSecret sharedSecret) with ks := some ks }
        let handshakeHash := s.transcript.getCurrentHash
        let ks := ks.deriveWithHash handshakeHash
        let s := { s.push (Event.ratcheted handshakeHash) with ks := some ks }
        if !s.joinerEmpty then
          (s.sendFatalAlert AlertDescription.illegalParameter, some panicAligned)
        else
          let writeKey := ks.derive SecretKind.ClientAuthenticatedHandshakeTrafficSecret
            handshakeHash
          let s := s.push (Event.derivedKey
            SecretKind.ClientAuthenticatedHandshakeTrafficSecret handshakeHash)
          let s := s.setMessageEncrypter writeKey
          let ks := { ks with currentClientTrafficSecret := writeKey }
          let s := { s with ks := some ks }
          let readKey := ks.derive SecretKind.ServerAuthenticatedHandshakeTrafficSecret
            handshakeHash
          let s := s.push (Event.derivedKey
            SecretKind.ServerAuthenticatedHandshakeTrafficSecret handshakeHash)
          let s := s.setMessageDecrypter readKey
          let ks := { ks with currentServerTrafficSecret := readKey }
          let s := { s with ks := some ks }
          (s, none)

/-- Emission of the client Finished (hs.rs emit_finished_tls13): sign with
the client authenticated-handshake secret, append and send, then move the
write side to the application traffic key and start traffic. -/
def emitFinishedTLS13 (s : Session) : Session × Option String :=
  match s.ks with
  | none => (s, some panicNoKeySchedule)
  | some ks =>
    let handshakeHash := s.transcript.getCurrentHash
    let verifyData :=
      ks.signFinish SecretKind.ClientAuthenticatedHandshakeTrafficSecret handshakeHash
    let s := s.addMsg HType.finished verifyData
    let s := s.sendHs HType.finished true
    if !s.joinerEmpty then
      (s.sendFatalAlert AlertDescription.illegalParameter, some panicAligned)
    else
      let handshakeHash2 := s.transcript.getCurrentHash
      let writeKey := ks.derive SecretKind.ClientApplicationTrafficSecret handshakeHash2
      let s := s.push (Event.derivedKey SecretKind.ClientApplicationTrafficSecret
        handshakeHash2)
      let s := s.setMessageEncrypter writeKey
      let ks := { ks with currentClientTrafficSecret := writeKey }
      let s := { s with ks := some ks }
      let s := { s.push Event.startedTraffic with weEncrypting := true, trafficStarted := true }
      (s, none)

/-- Handler of the ExpectTLS13Certificate state (hs.rs 1391-1444): validate
the payload, verify the chain through the configured verifier, then run the
KEMTLS implicit authentication and move to ExpectTLS13Finished. -/
def handleCertificateTLS13 (s : Session) (cp : CertificatePayloadTLS13) :
    Session × HandlerOutcome :=
  let s := s.addMsg HType.certificate cp.bodyEnc
  if !cp.context.isEmpty then
    (s.sendFatalAlert AlertDescription.decodeError,
     HandlerOutcome.fail (TLSError.corruptMessagePayload ContentType.handshake))
  else if cp.anyEntryDup ∨ cp.anyEntryUnknown then
    (s.sendFatalAlert AlertDescription.unsupportedExtension,
     HandlerOutcome.fail (TLSError.peerMisbehavedError rsnBadChainExt))
  else
    let s := { s with serverCert :=
      { certChain := cp.entries, ocsp := cp.eeOcsp, scts := cp.eeScts } }
    let sctBad : Option TLSError :=
      match cp.eeScts with
      | some scts =>
        if sctListIsInvalid scts then some (TLSError.peerMisbehavedError rsnInvalidSct)
        else if !s.cfg.ctLogsPresent then
          some (TLSError.peerMisbehavedError rsnUnsolicitedSct)
        else none
      | none => none
    match sctBad with
    | some e => (s, HandlerOutcome.fail e)
    | none =>
      let s := s.push (Event.verifiedChain s.serverCert.certChain)
      match s.cfg.verifier.run s.serverCert.certChain with
      | some e => (sendCertErrorAlert s e, HandlerOutcome.fail e)
      | none =>
        match emitClientkxKem s with
        | (s, some m) => (s, HandlerOutcome.panicked m)
        | (s, none) =>
          match emitFinishedTLS13 s with
          | (s, some m) => (s, HandlerOutcome.panicked m)
          | (s, none) => (s, HandlerOutcome.next NextSt.expectTLS13Finished)

/-- Expected verify_data of the server Finished, as computed by the
ExpectTLS13Finished handler (hs.rs 2519-2523). -/
def finishedExpectedVd (s : Session) : Option SymBytes :=
  s.ks.map (fun ks =>
    ks.signFinish SecretKind.ServerAuthenticatedHandshakeTrafficSecret
      s.transcript.getCurrentHash)

/-- Handler of the ExpectTLS13Finished state (hs.rs 2514-2618): check the
verify_data, then append the Finished, ratchet with input_empty, and install
the server application traffic key and the exporter secret. -/
def handleFinishedTLS13 (s : Session) (fin : FinishedPayload) : Session × HandlerOutcome :=
  match s.ks with
  | none => (s, HandlerOutcome.panicked panicNoKeySchedule)
  | some ks =>
    let handshakeHash := s.transcript.getCurrentHash
    let expectVerifyData :=
      ks.signFinish SecretKind.ServerAuthenticatedHandshakeTrafficSecret handshakeHash
    if fin.verifyData ≠ expectVerifyData then
      (s.sendFatalAlert AlertDescription.decryptError,
       HandlerOutcome.fail TLSError.decryptError)
    else
      let s := s.addMsg HType.finished fin.verifyData
      let ks := ks.inputEmpty
      let s := { s with ks := some ks }
      let handshakeHash2 := s.transcript.getCurrentHash
      let readKey := ks.derive SecretKind.ServerApplicationTrafficSecret handshakeHash2
      let s := s.push (Event.derivedKey SecretKind.ServerApplicationTrafficSecret
        handshakeHash2)
      let s := s.setMessageDecrypter readKey
      let ks := { ks with currentServerTrafficSecret := readKey }
      let s := { s with ks := some ks }
      let exporterSecret := ks.derive SecretKind.ExporterMasterSecret handshakeHash2
      let ks := { ks with currentExporterSecret := exporterSecret }
      let s := { s with ks := some ks }
      (s, HandlerOutcome.next NextSt.expectTLS13Traffic)

/-- Message filter of the ExpectTLS13Finished state
(hs.rs ExpectTLS13Finished::check_message). -/
def expectTLS13FinishedCheckMessage (ht : HType) : Bool :=
  [HType.finished].contains ht

end Rustls

namespace Rustls

/-- Fresh session state at handshake start (hs.rs start_handshake). -/
def initialSession (cfg : Config) (hello : ClientHelloDetails)
    (resuming : Option ResumingSession) : Session :=
  { cfg := cfg
    hello := hello
    transcript := { alg := none, buffer := [] }
    ks := none
    negotiatedVersion := none
    suite := none
    earlyDataEnabled := false
    earlyDataAccepted := false
    earlyTraffic := false
    sentTls13FakeCcs := false
    joinerEmpty := true
    resumingSession := resuming
    hashAtClientRecvdServerHello := SymBytes.zeroes
    encrypter := none
    decrypter := none
    alpnProtocol := none
    serverCert := { certChain := [], ocsp := none, scts := none }
    alerts := []
    events := []
    weEncrypting := false
    trafficStarted := false }

/-- Full-handshake composition up to the server Certificate: initial
ClientHello, ServerHello, EncryptedExtensions, Certificate.  The dispatcher
only advances when the previous handler returned the state that accepts the
next message. -/
def runKemtlsToFinished (cfg : Config) (hello : ClientHelloDetails)
    (sh : ServerHelloPayload) (ee : EncryptedExtensions) (cp : CertificatePayloadTLS13) :
    Session × HandlerOutcome :=
  match emitClientHelloForRetry (initialSession cfg hello none) none with
  | (s, HandlerOutcome.next NextSt.expectServerHelloOrHelloRetryRequest) =>
    match handleServerHello s sh with
    | (s, HandlerOutcome.next NextSt.expectTLS13EncryptedExtensions) =>
      match handleEncryptedExtensions s ee with
      | (s, HandlerOutcome.next NextSt.expectTLS13CertificateOrCertReq) =>
        handleCertificateTLS13 s cp
      | o => o
    | o => o
  | o => o

/-- Full KEMTLS handshake composition including the server Finished. -/
def runKemtls (cfg : Config) (hello : ClientHelloDetails) (sh : ServerHelloPayload)
    (ee : EncryptedExtensions) (cp : CertificatePayloadTLS13) (fin : FinishedPayload) :
    Session × HandlerOutcome :=
  match runKemtlsToFinished cfg hello sh ee cp with
  | (s, HandlerOutcome.next NextSt.expectTLS13Finished) => handleFinishedTLS13 s fin
  | o => o

/-- Resumption-flow composition up to the server Finished: initial
ClientHello with a cached session, ServerHello selecting the PSK,
EncryptedExtensions, which leads straight to ExpectTLS13Finished. -/
def runResumeToFinished (cfg : Config) (hello : ClientHelloDetails)
    (r : ResumingSession) (sh : ServerHelloPayload) (ee : EncryptedExtensions) :
    Session × HandlerOutcome :=
  match emitClientHelloForRetry (initialSession cfg hello (some r)) none with
  | (s, HandlerOutcome.next NextSt.expectServerHelloOrHelloRetryRequest) =>
    match handleServerHello s sh with
    | (s, HandlerOutcome.next NextSt.expectTLS13EncryptedExtensions) =>
      handleEncryptedExtensions s ee
    | o => o
  | o => o

/-- Resumption-flow composition including the server Finished. -/
def runResume (cfg : Config) (hello : ClientHelloDetails) (r : ResumingSession)
    (sh : ServerHelloPayload) (ee : EncryptedExtensions) (fin : FinishedPayload) :
    Session × HandlerOutcome :=
  match runResumeToFinished cfg hello r sh ee with
  | (s, HandlerOutcome.next NextSt.expectTLS13Finished) => handleFinishedTLS13 s fin
  | o => o

/-- Composition of the initial ClientHello with a HelloRetryRequest reply. -/
def runHrr (cfg : Config) (hello : ClientHelloDetails) (hrr : HelloRetryRequest) :
    Session × HandlerOutcome :=
  match emitClientHelloForRetry (initialSession cfg hello none) none with
  | (s, HandlerOutcome.next NextSt.expectServerHelloOrHelloRetryRequest) =>
    handleHelloRetryRequest s hrr
  | o => o

end Rustls


namespace Rustls

/-- SignatureScheme codepoints of the PQ-extended codepoint space
(msgs/enums.rs): every codepoint the generated PQ tables mention.  The
classical codepoints fall into the unreachable default arm of the
generated match and are not part of this model. -/
inductive SignatureScheme where
  | DILITHIUM2
  | DILITHIUM3
  | DILITHIUM5
  | FALCON512
  | FALCON1024
  | RAINBOWICLASSIC
  | RAINBOWICIRCUMZENITHAL
  | RAINBOWICOMPRESSED
  | RAINBOWIIICLASSIC
  | RAINBOWIIICIRCUMZENITHAL
  | RAINBOWIIICOMPRESSED
  | RAINBOWVCLASSIC
  | RAINBOWVCIRCUMZENITHAL
  | RAINBOWVCOMPRESSED
  | SPHINCSHARAKA128FSIMPLE
  | SPHINCSHARAKA128FROBUST
  | SPHINCSHARAKA128SSIMPLE
  | SPHINCSHARAKA128SROBUST
  | SPHINCSHARAKA192FSIMPLE
  | SPHINCSHARAKA192FROBUST
  | SPHINCSHARAKA192SSIMPLE
  | SPHINCSHARAKA192SROBUST
  | SPHINCSHARAKA256FSIMPLE
  | SPHINCSHARAKA256FROBUST
  | SPHINCSHARAKA256SSIMPLE
  | SPHINCSHARAKA256SROBUST
  | SPHINCSSHA256128FSIMPLE
  | SPHINCSSHA256128FROBUST
  | SPHINCSSHA256128SSIMPLE
  | SPHINCSSHA256128SROBUST
  | SPHINCSSHA256192FSIMPLE
  | SPHINCSSHA256192FROBUST
  | SPHINCSSHA256192SSIMPLE
  | SPHINCSSHA256192SROBUST
  | SPHINCSSHA256256FSIMPLE
  | SPHINCSSHA256256FROBUST
  | SPHINCSSHA256256SSIMPLE
  | SPHINCSSHA256256SROBUST
  | SPHINCSSHAKE256128FSIMPLE
  | SPHINCSSHAKE256128FROBUST
  | SPHINCSSHAKE256128SSIMPLE
  | SPHINCSSHAKE256128SROBUST
  | SPHINCSSHAKE256192FSIMPLE
  | SPHINCSSHAKE256192FROBUST
  | SPHINCSSHAKE256192SSIMPLE
  | SPHINCSSHAKE256192SROBUST
  | SPHINCSSHAKE256256FSIMPLE
  | SPHINCSSHAKE256256FROBUST
  | SPHINCSSHAKE256256SSIMPLE
  | SPHINCSSHAKE256256SROBUST
  | XMSS
  | KEMTLS_KYBER512
  | KEMTLS_KYBER768
  | KEMTLS_KYBER1024
  | KEMTLS_MCELIECE348864
  | KEMTLS_MCELIECE348864F
  | KEMTLS_MCELIECE460896
  | KEMTLS_MCELIECE460896F
  | KEMTLS_MCELIECE6688128
  | KEMTLS_MCELIECE6688128F
  | KEMTLS_MCELIECE6960119
  | KEMTLS_MCELIECE6960119F
  | KEMTLS_MCELIECE8192128
  | KEMTLS_MCELIECE8192128F
  | KEMTLS_LIGHTSABER
  | KEMTLS_SABER
  | KEMTLS_FIRESABER
  | KEMTLS_NTRUHPS2048509
  | KEMTLS_NTRUHPS2048677
  | KEMTLS_NTRUHPS4096821
  | KEMTLS_NTRUHRSS701
  | KEMTLS_NTRULPR653
  | KEMTLS_NTRULPR761
  | KEMTLS_NTRULPR857
  | KEMTLS_SNTRUP653
  | KEMTLS_SNTRUP761
  | KEMTLS_SNTRUP857
  | KEMTLS_FRODOKEM640AES
  | KEMTLS_FRODOKEM640SHAKE
  | KEMTLS_FRODOKEM976AES
  | KEMTLS_FRODOKEM976SHAKE
  | KEMTLS_FRODOKEM1344AES
  | KEMTLS_FRODOKEM1344SHAKE
  | KEMTLS_SIKEP434
  | KEMTLS_SIKEP434COMPRESSED
  | KEMTLS_SIKEP503
  | KEMTLS_SIKEP503COMPRESSED
  | KEMTLS_SIKEP610
  | KEMTLS_SIKEP610COMPRESSED
  | KEMTLS_SIKEP751
  | KEMTLS_SIKEP751COMPRESSED
  | KEMTLS_BIKEL1FO
  | KEMTLS_BIKEL3FO
  deriving DecidableEq

/-- Static SignatureScheme-to-DER-AlgorithmIdentifier table, one row per
match arm of generated/scheme_to_oid.rs; the value names the DER blob file
included by the arm. -/
def schemeToOidTable : List (SignatureScheme × String) := [
  (SignatureScheme.DILITHIUM2, r"data/alg-dilithium2.der"),
  (SignatureScheme.DILITHIUM3, r"data/alg-dilithium3.der"),
  (SignatureScheme.DILITHIUM5, r"data/alg-dilithium5.der"),
  (SignatureScheme.FALCON512, r"data/alg-falcon512.der"),
  (SignatureScheme.FALCON1024, r"data/alg-falcon1024.der"),
  (SignatureScheme.RAINBOWICLASSIC, r"data/alg-rainbowiclassic.der"),
  (SignatureScheme.RAINBOWICIRCUMZENITHAL, r"data/alg-rainbowicircumzenithal.der"),
  (SignatureScheme.RAINBOWICOMPRESSED, r"data/alg-rainbowicompressed.der"),
  (SignatureScheme.RAINBOWIIICLASSIC, r"data/alg-rainbowiiiclassic.der"),
  (SignatureScheme.RAINBOWIIICIRCUMZENITHAL, r"data/alg-rainbowiiicircumzenithal.der"),
  (SignatureScheme.RAINBOWIIICOMPRESSED, r"data/alg-rainbowiiicompressed.der"),
  (SignatureScheme.RAINBOWVCLASSIC, r"data/alg-rainbowvclassic.der"),
  (SignatureScheme.RAINBOWVCIRCUMZENITHAL, r"data/alg-rainbowvcircumzenithal.der"),
  (SignatureScheme.RAINBOWVCOMPRESSED, r"data/alg-rainbowvcompressed.der"),
  (SignatureScheme.SPHINCSHARAKA128FSIMPLE, r"data/alg-sphincsharaka128fsimple.der"),
  (SignatureScheme.SPHINCSHARAKA128FROBUST, r"data/alg-sphincsharaka128frobust.der"),
  (SignatureScheme.SPHINCSHARAKA128SSIMPLE, r"data/alg-sphincsharaka128ssimple.der"),
  (SignatureScheme.SPHINCSHARAKA128SROBUST, r"data/alg-sphincsharaka128srobust.der"),
  (SignatureScheme.SPHINCSHARAKA192FSIMPLE, r"data/alg-sphincsharaka192fsimple.der"),
  (SignatureScheme.SPHINCSHARAKA192FROBUST, r"data/alg-sphincsharaka192frobust.der"),
  (SignatureScheme.SPHINCSHARAKA192SSIMPLE, r"data/alg-sphincsharaka192ssimple.der"),
  (SignatureScheme.SPHINCSHARAKA192SROBUST, r"data/alg-sphincsharaka192srobust.der"),
  (SignatureScheme.SPHINCSHARAKA256FSIMPLE, r"data/alg-sphincsharaka256fsimple.der"),
  (SignatureScheme.SPHINCSHARAKA256FROBUST, r"data/alg-sphincsharaka256frobust.der"),
  (SignatureScheme.SPHINCSHARAKA256SSIMPLE, r"data/alg-sphincsharaka256ssimple.der"),
  (SignatureScheme.SPHINCSHARAKA256SROBUST, r"data/alg-sphincsharaka256srobust.der"),
  (SignatureScheme.SPHINCSSHA256128FSIMPLE, r"data/alg-sphincssha256128fsimple.der"),
  (SignatureScheme.SPHINCSSHA256128FROBUST, r"data/alg-sphincssha256128frobust.der"),
  (SignatureScheme.SPHINCSSHA256128SSIMPLE, r"data/alg-sphincssha256128ssimple.der"),
  (SignatureScheme.SPHINCSSHA256128SROBUST, r"data/alg-sphincssha256128srobust.der"),
  (SignatureScheme.SPHINCSSHA256192FSIMPLE, r"data/alg-sphincssha256192fsimple.der"),
  (SignatureScheme.SPHINCSSHA256192FROBUST, r"data/alg-sphincssha256192frobust.der"),
  (SignatureScheme.SPHINCSSHA256192SSIMPLE, r"data/alg-sphincssha256192ssimple.der"),
  (SignatureScheme.SPHINCSSHA256192SROBUST, r"data/alg-sphincssha256192srobust.der"),
  (SignatureScheme.SPHINCSSHA256256FSIMPLE, r"data/alg-sphincssha256256fsimple.der"),
  (SignatureScheme.SPHINCSSHA256256FROBUST, r"data/alg-sphincssha256256frobust.der"),
  (SignatureScheme.SPHINCSSHA256256SSIMPLE, r"data/alg-sphincssha256256ssimple.der"),
  (SignatureScheme.SPHINCSSHA256256SROBUST, r"data/alg-sphincssha256256srobust.der"),
  (SignatureScheme.SPHINCSSHAKE256128FSIMPLE, r"data/alg-sphincsshake256128fsimple.der"),
  (SignatureScheme.SPHINCSSHAKE256128FROBUST, r"data/alg-sphincsshake256128frobust.der"),
  (SignatureScheme.SPHINCSSHAKE256128SSIMPLE, r"data/alg-sphincsshake256128ssimple.der"),
  (SignatureScheme.SPHINCSSHAKE256128SROBUST, r"data/alg-sphincsshake256128srobust.der"),
  (SignatureScheme.SPHINCSSHAKE256192FSIMPLE, r"data/alg-sphincsshake256192fsimple.der"),
  (SignatureScheme.SPHINCSSHAKE256192FROBUST, r"data/alg-sphincsshake256192frobust.der"),
  (SignatureScheme.SPHINCSSHAKE256192SSIMPLE, r"data/alg-sphincsshake256192ssimple.der"),
  (SignatureScheme.SPHINCSSHAKE256192SROBUST, r"data/alg-sphincsshake256192srobust.der"),
  (SignatureScheme.SPHINCSSHAKE256256FSIMPLE, r"data/alg-sphincsshake256256fsimple.der"),
  (SignatureScheme.SPHINCSSHAKE256256FROBUST, r"data/alg-sphincsshake256256frobust.der"),
  (SignatureScheme.SPHINCSSHAKE256256SSIMPLE, r"data/alg-sphincsshake256256ssimple.der"),
  (SignatureScheme.SPHINCSSHAKE256256SROBUST, r"data/alg-sphincsshake256256srobust.der"),
  (SignatureScheme.XMSS, r"data/alg-xmss.der"),
  (SignatureScheme.KEMTLS_KYBER512, r"data/alg-kyber512.der"),
  (SignatureScheme.KEMTLS_KYBER768, r"data/alg-kyber768.der"),
  (SignatureScheme.KEMTLS_KYBER1024, r"data/alg-kyber1024.der"),
  (SignatureScheme.KEMTLS_MCELIECE348864, r"data/alg-mceliece348864.der"),
  (SignatureScheme.KEMTLS_MCELIECE348864F, r"data/alg-mceliece348864f.der"),
  (SignatureScheme.KEMTLS_MCELIECE460896, r"data/alg-mceliece460896.der"),
  (SignatureScheme.KEMTLS_MCELIECE460896F, r"data/alg-mceliece460896f.der"),
  (SignatureScheme.KEMTLS_MCELIECE6688128, r"data/alg-mceliece6688128.der"),
  (SignatureScheme.KEMTLS_MCELIECE6688128F, r"data/alg-mceliece6688128f.der"),
  (SignatureScheme.KEMTLS_MCELIECE6960119, r"data/alg-mceliece6960119.der"),
  (SignatureScheme.KEMTLS_MCELIECE6960119F, r"data/alg-mceliece6960119f.der"),
  (SignatureScheme.KEMTLS_MCELIECE8192128, r"data/alg-mceliece8192128.der"),
  (SignatureScheme.KEMTLS_MCELIECE8192128F, r"data/alg-mceliece8192128f.der"),
  (SignatureScheme.KEMTLS_LIGHTSABER, r"data/alg-lightsaber.der"),
  (SignatureScheme.KEMTLS_SABER, r"data/alg-saber.der"),
  (SignatureScheme.KEMTLS_FIRESABER, r"data/alg-firesaber.der"),
  (SignatureScheme.KEMTLS_NTRUHPS2048509, r"data/alg-ntruhps2048509.der"),
  (SignatureScheme.KEMTLS_NTRUHPS2048677, r"data/alg-ntruhps2048677.der"),
  (SignatureScheme.KEMTLS_NTRUHPS4096821, r"data/alg-ntruhps4096821.der"),
  (SignatureScheme.KEMTLS_NTRUHRSS701, r"data/alg-ntruhrss701.der"),
  (SignatureScheme.KEMTLS_NTRULPR653, r"data/alg-ntrulpr653.der"),
  (SignatureScheme.KEMTLS_NTRULPR761, r"data/alg-ntrulpr761.der"),
  (SignatureScheme.KEMTLS_NTRULPR857, r"data/alg-ntrulpr857.der"),
  (SignatureScheme.KEMTLS_SNTRUP653, r"data/alg-sntrup653.der"),
  (SignatureScheme.KEMTLS_SNTRUP761, r"data/alg-sntrup761.der"),
  (SignatureScheme.KEMTLS_SNTRUP857, r"data/alg-sntrup857.der"),
  (SignatureScheme.KEMTLS_FRODOKEM640AES, r"data/alg-frodokem640aes.der"),
  (SignatureScheme.KEMTLS_FRODOKEM640SHAKE, r"data/alg-frodokem640shake.der"),
  (SignatureScheme.KEMTLS_FRODOKEM976AES, r"data/alg-frodokem976aes.der"),
  (SignatureScheme.KEMTLS_FRODOKEM976SHAKE, r"data/alg-frodokem976shake.der"),
  (SignatureScheme.KEMTLS_FRODOKEM1344AES, r"data/alg-frodokem1344aes.der"),
  (SignatureScheme.KEMTLS_FRODOKEM1344SHAKE, r"data/alg-frodokem1344shake.der"),
  (SignatureScheme.KEMTLS_SIKEP434, r"data/alg-sikep434.der"),
  (SignatureScheme.KEMTLS_SIKEP434COMPRESSED, r"data/alg-sikep434compressed.der"),
  (SignatureScheme.KEMTLS_SIKEP503, r"data/alg-sikep503.der"),
  (SignatureScheme.KEMTLS_SIKEP503COMPRESSED, r"data/alg-sikep503compressed.der"),
  (SignatureScheme.KEMTLS_SIKEP610, r"data/alg-sikep610.der"),
  (SignatureScheme.KEMTLS_SIKEP610COMPRESSED, r"data/alg-sikep610compressed.der"),
  (SignatureScheme.KEMTLS_SIKEP751, r"data/alg-sikep751.der"),
  (SignatureScheme.KEMTLS_SIKEP751COMPRESSED, r"data/alg-sikep751compressed.der"),
  (SignatureScheme.KEMTLS_BIKEL1FO, r"data/alg-bikel1fo.der"),
  (SignatureScheme.KEMTLS_BIKEL3FO, r"data/alg-bikel3fo.der")]

/-- Lookup in the static table (generated/scheme_to_oid.rs). -/
def schemeToOid (s : SignatureScheme) : Option String :=
  (schemeToOidTable.find? (fun e => e.fst = s)).map Prod.snd

/-- Supported PQ signature schemes (generated/pq_sigschemes.rs). -/
def pqSigschemes : List SignatureScheme := [
  SignatureScheme.DILITHIUM2,
  SignatureScheme.DILITHIUM3,
  SignatureScheme.DILITHIUM5,
  SignatureScheme.FALCON512,
  SignatureScheme.FALCON1024,
  SignatureScheme.RAINBOWICLASSIC,
  SignatureScheme.RAINBOWICIRCUMZENITHAL,
  SignatureScheme.RAINBOWICOMPRESSED,
  SignatureScheme.RAINBOWIIICLASSIC,
  SignatureScheme.RAINBOWIIICIRCUMZENITHAL,
  SignatureScheme.RAINBOWIIICOMPRESSED,
  SignatureScheme.RAINBOWVCLASSIC,
  SignatureScheme.RAINBOWVCIRCUMZENITHAL,
  SignatureScheme.RAINBOWVCOMPRESSED,
  SignatureScheme.SPHINCSHARAKA128FSIMPLE,
  SignatureScheme.SPHINCSHARAKA128FROBUST,
  SignatureScheme.SPHINCSHARAKA128SSIMPLE,
  SignatureScheme.SPHINCSHARAKA128SROBUST,
  SignatureScheme.SPHINCSHARAKA192FSIMPLE,
  SignatureScheme.SPHINCSHARAKA192FROBUST,
  SignatureScheme.SPHINCSHARAKA192SSIMPLE,
  SignatureScheme.SPHINCSHARAKA192SROBUST,
  SignatureScheme.SPHINCSHARAKA256FSIMPLE,
  SignatureScheme.SPHINCSHARAKA256FROBUST,
  SignatureScheme.SPHINCSHARAKA256SSIMPLE,
  SignatureScheme.SPHINCSHARAKA256SROBUST,
  SignatureScheme.SPHINCSSHA256128FSIMPLE,
  SignatureScheme.SPHINCSSHA256128FROBUST,
  SignatureScheme.SPHINCSSHA256128SSIMPLE,
  SignatureScheme.SPHINCSSHA256128SROBUST,
  SignatureScheme.SPHINCSSHA256192FSIMPLE,
  SignatureScheme.SPHINCSSHA256192FROBUST,
  SignatureScheme.SPHINCSSHA256192SSIMPLE,
  SignatureScheme.SPHINCSSHA256192SROBUST,
  SignatureScheme.SPHINCSSHA256256FSIMPLE,
  SignatureScheme.SPHINCSSHA256256FROBUST,
  SignatureScheme.SPHINCSSHA256256SSIMPLE,
  SignatureScheme.SPHINCSSHA256256SROBUST,
  SignatureScheme.SPHINCSSHAKE256128FSIMPLE,
  SignatureScheme.SPHINCSSHAKE256128FROBUST,
  SignatureScheme.SPHINCSSHAKE256128SSIMPLE,
  SignatureScheme.SPHINCSSHAKE256128SROBUST,
  SignatureScheme.SPHINCSSHAKE256192FSIMPLE,
  SignatureScheme.SPHINCSSHAKE256192FROBUST,
  SignatureScheme.SPHINCSSHAKE256192SSIMPLE,
  SignatureScheme.SPHINCSSHAKE256192SROBUST,
  SignatureScheme.SPHINCSSHAKE256256FSIMPLE,
  SignatureScheme.SPHINCSSHAKE256256FROBUST,
  SignatureScheme.SPHINCSSHAKE256256SSIMPLE,
  SignatureScheme.SPHINCSSHAKE256256SROBUST,
  SignatureScheme.XMSS]

/-- Modelled from the spec: the PQ signature codepoints enumerated in the
glossary (required enumeration), written out from the glossary text. -/
def glossaryPqSignatureSchemes : List SignatureScheme := [
  SignatureScheme.DILITHIUM2,
  SignatureScheme.DILITHIUM3,
  SignatureScheme.DILITHIUM5,
  SignatureScheme.FALCON512,
  SignatureScheme.FALCON1024,
  SignatureScheme.RAINBOWICLASSIC,
  SignatureScheme.RAINBOWICIRCUMZENITHAL,
  SignatureScheme.RAINBOWICOMPRESSED,
  SignatureScheme.RAINBOWIIICLASSIC,
  SignatureScheme.RAINBOWIIICIRCUMZENITHAL,
  SignatureScheme.RAINBOWIIICOMPRESSED,
  SignatureScheme.RAINBOWVCLASSIC,
  SignatureScheme.RAINBOWVCIRCUMZENITHAL,
  SignatureScheme.RAINBOWVCOMPRESSED,
  SignatureScheme.SPHINCSHARAKA128FSIMPLE,
  SignatureScheme.SPHINCSHARAKA128FROBUST,
  SignatureScheme.SPHINCSHARAKA128SSIMPLE,
  SignatureScheme.SPHINCSHARAKA128SROBUST,
  SignatureScheme.SPHINCSHARAKA192FSIMPLE,
  SignatureScheme.SPHINCSHARAKA192FROBUST,
  SignatureScheme.SPHINCSHARAKA192SSIMPLE,
  SignatureScheme.SPHINCSHARAKA192SROBUST,
  SignatureScheme.SPHINCSHARAKA256FSIMPLE,
  SignatureScheme.SPHINCSHARAKA256FROBUST,
  SignatureScheme.SPHINCSHARAKA256SSIMPLE,
  SignatureScheme.SPHINCSHARAKA256SROBUST,
  SignatureScheme.SPHINCSSHA256128FSIMPLE,
  SignatureScheme.SPHINCSSHA256128FROBUST,
  SignatureScheme.SPHINCSSHA256128SSIMPLE,
  SignatureScheme.SPHINCSSHA256128SROBUST,
  SignatureScheme.SPHINCSSHA256192FSIMPLE,
  SignatureScheme.SPHINCSSHA256192FROBUST,
  SignatureScheme.SPHINCSSHA256192SSIMPLE,
  SignatureScheme.SPHINCSSHA256192SROBUST,
  SignatureScheme.SPHINCSSHA256256FSIMPLE,
  SignatureScheme.SPHINCSSHA256256FROBUST,
  SignatureScheme.SPHINCSSHA256256SSIMPLE,
  SignatureScheme.SPHINCSSHA256256SROBUST,
  SignatureScheme.SPHINCSSHAKE256128FSIMPLE,
  SignatureScheme.SPHINCSSHAKE256128FROBUST,
  SignatureScheme.SPHINCSSHAKE256128SSIMPLE,
  SignatureScheme.SPHINCSSHAKE256128SROBUST,
  SignatureScheme.SPHINCSSHAKE256192FSIMPLE,
  SignatureScheme.SPHINCSSHAKE256192FROBUST,
  SignatureScheme.SPHINCSSHAKE256192SSIMPLE,
  SignatureScheme.SPHINCSSHAKE256192SROBUST,
  SignatureScheme.SPHINCSSHAKE256256FSIMPLE,
  SignatureScheme.SPHINCSSHAKE256256FROBUST,
  SignatureScheme.SPHINCSSHAKE256256SSIMPLE,
  SignatureScheme.SPHINCSSHAKE256256SROBUST,
  SignatureScheme.XMSS]

/-- Modelled from the spec: the KEMTLS KEM codepoints enumerated in the
glossary (required enumeration), written out from the glossary text. -/
def glossaryKemSchemes : List SignatureScheme := [
  SignatureScheme.KEMTLS_KYBER512,
  SignatureScheme.KEMTLS_KYBER768,
  SignatureScheme.KEMTLS_KYBER1024,
  SignatureScheme.KEMTLS_MCELIECE348864,
  SignatureScheme.KEMTLS_MCELIECE348864F,
  SignatureScheme.KEMTLS_MCELIECE460896,
  SignatureScheme.KEMTLS_MCELIECE460896F,
  SignatureScheme.KEMTLS_MCELIECE6688128,
  SignatureScheme.KEMTLS_MCELIECE6688128F,
  SignatureScheme.KEMTLS_MCELIECE6960119,
  SignatureScheme.KEMTLS_MCELIECE6960119F,
  SignatureScheme.KEMTLS_MCELIECE8192128,
  SignatureScheme.KEMTLS_MCELIECE8192128F,
  SignatureScheme.KEMTLS_LIGHTSABER,
  SignatureScheme.KEMTLS_SABER,
  SignatureScheme.KEMTLS_FIRESABER,
  SignatureScheme.KEMTLS_NTRUHPS2048509,
  SignatureScheme.KEMTLS_NTRUHPS2048677,
  SignatureScheme.KEMTLS_NTRUHPS4096821,
  SignatureScheme.KEMTLS_NTRUHRSS701,
  SignatureScheme.KEMTLS_NTRULPR653,
  SignatureScheme.KEMTLS_NTRULPR761,
  SignatureScheme.KEMTLS_NTRULPR857,
  SignatureScheme.KEMTLS_SNTRUP653,
  SignatureScheme.KEMTLS_SNTRUP761,
  SignatureScheme.KEMTLS_SNTRUP857,
  SignatureScheme.KEMTLS_FRODOKEM640AES,
  SignatureScheme.KEMTLS_FRODOKEM640SHAKE,
  SignatureScheme.KEMTLS_FRODOKEM976AES,
  SignatureScheme.KEMTLS_FRODOKEM976SHAKE,
  SignatureScheme.KEMTLS_FRODOKEM1344AES,
  SignatureScheme.KEMTLS_FRODOKEM1344SHAKE,
  SignatureScheme.KEMTLS_SIKEP434,
  SignatureScheme.KEMTLS_SIKEP434COMPRESSED,
  SignatureScheme.KEMTLS_SIKEP503,
  SignatureScheme.KEMTLS_SIKEP503COMPRESSED,
  SignatureScheme.KEMTLS_SIKEP610,
  SignatureScheme.KEMTLS_SIKEP610COMPRESSED,
  SignatureScheme.KEMTLS_SIKEP751,
  SignatureScheme.KEMTLS_SIKEP751COMPRESSED,
  SignatureScheme.KEMTLS_BIKEL1FO,
  SignatureScheme.KEMTLS_BIKEL3FO]

end Rustls

namespace Rustls

/-- C10: for every ServerHello negotiating TLS 1.2 while the client has early
data enabled and early traffic in flight, ExpectServerHello::handle returns
PeerMisbehavedError with reason "server chose v1.2 when offering 0-rtt",
leaves the session untouched (in particular no alert is sent), and does not
proceed into the TLS 1.2 machinery. -/
theorem claim_C10 (s : Session) (sh : ServerHelloPayload)
    (hver : serverVersionOf sh = ProtocolVersion.TLSv1_2)
    (h12 : s.cfg.supports12 = true)
    (hearly : s.earlyDataEnabled = true)
    (htraffic : s.earlyTraffic = true) :
    handleServerHello s sh =
      (s, HandlerOutcome.fail (TLSError.peerMisbehavedError rsnChoseV12ZeroRtt)) := by
  unfold handleServerHello
  rw [hver]
  simp [h12, hearly, htraffic]

/-- Witness of C10 at a concrete ServerHello and session. -/
theorem claim_C10_witness :
    handleServerHello
      (initialSession
        { supports12 := true, supports13 := true, cipherSuites := [],
          enableTickets := false, enableEarlyData := true, ctLogsPresent := false,
          alpnProtocols := [], verifier := VerifierModel.alwaysOk,
          clientHelloBytes := [1] }
        { sentExtensions := [], offeredKeyShares := [] } none
        |> fun s => { s with earlyDataEnabled := true, earlyTraffic := true })
      { legacyVersion := ProtocolVersion.TLSv1_2, supportedVersions := none,
        cipherSuite := 7, compressionMethod := Compression.null, extTypes := [],
        hasDupExt := false, pskIndex := none, keyShare := none, ecpoints := none,
        alpn := none, bodyEnc := SymBytes.lit [2] } =
      (initialSession
        { supports12 := true, supports13 := true, cipherSuites := [],
          enableTickets := false, enableEarlyData := true, ctLogsPresent := false,
          alpnProtocols := [], verifier := VerifierModel.alwaysOk,
          clientHelloBytes := [1] }
        { sentExtensions := [], offeredKeyShares := [] } none
        |> fun s => { s with earlyDataEnabled := true, earlyTraffic := true },
       HandlerOutcome.fail (TLSError.peerMisbehavedError rsnChoseV12ZeroRtt)) :=
  claim_C10 _ _ (by decide) (by decide) (by decide) (by decide)

end Rustls

namespace Rustls

/-- C9: the static SignatureScheme-to-DER table has exactly one entry for
every PQ signature codepoint and every KEMTLS KEM codepoint of the glossary
enumeration, and the supported PQ signature scheme list enumerates each PQ
signature codepoint exactly once and nothing else. -/
theorem claim_C9 :
    (∀ c ∈ glossaryPqSignatureSchemes ++ glossaryKemSchemes,
        (schemeToOidTable.filter (fun e => e.fst = c)).length = 1)
    ∧ (∀ c ∈ glossaryPqSignatureSchemes, pqSigschemes.count c = 1)
    ∧ pqSigschemes.length = glossaryPqSignatureSchemes.length := by
  decide

end Rustls

namespace Rustls

/-- C4: a server Finished whose verify_data differs from the expected value
makes ExpectTLS13Finished::handle send a decrypt_error fatal alert and
return DecryptError, with the transcript left unchanged (the message is
appended only after the comparison succeeds). -/
theorem claim_C4 (s : Session) (ks : KeySchedule) (fin : FinishedPayload)
    (hks : s.ks = some ks)
    (hne : fin.verifyData ≠
      ks.signFinish SecretKind.ServerAuthenticatedHandshakeTrafficSecret
        s.transcript.getCurrentHash) :
    handleFinishedTLS13 s fin =
      (s.sendFatalAlert AlertDescription.decryptError,
       HandlerOutcome.fail TLSError.decryptError)
    ∧ (handleFinishedTLS13 s fin).fst.transcript = s.transcript
    ∧ (handleFinishedTLS13 s fin).fst.alerts = s.alerts ++ [AlertDescription.decryptError] := by
  unfold handleFinishedTLS13
  rw [hks]
  simp [hne, Session.sendFatalAlert]

/-- Concrete session state used by the C4 witness. -/
def c4Session : Session :=
  { initialSession
      { supports12 := false, supports13 := true, cipherSuites := [],
        enableTickets := false, enableEarlyData := false, ctLogsPresent := false,
        alpnProtocols := [], verifier := VerifierModel.alwaysOk,
        clientHelloBytes := [1] }
      { sentExtensions := [], offeredKeyShares := [] } none with
    ks := some (KeySchedule.new HashAlg.sha256) }

/-- Witness of C4 at a concrete session and a fuzzed verify_data. -/
theorem claim_C4_witness :
    handleFinishedTLS13 c4Session { verifyData := SymBytes.lit [0] } =
      (c4Session.sendFatalAlert AlertDescription.decryptError,
       HandlerOutcome.fail TLSError.decryptError)
    ∧ (handleFinishedTLS13 c4Session { verifyData := SymBytes.lit [0] }).fst.transcript
        = c4Session.transcript
    ∧ (handleFinishedTLS13 c4Session { verifyData := SymBytes.lit [0] }).fst.alerts
        = c4Session.alerts ++ [AlertDescription.decryptError] :=
  claim_C4 c4Session (KeySchedule.new HashAlg.sha256) { verifyData := SymBytes.lit [0] }
    (by decide) (by decide)

end Rustls

namespace Rustls

/-- Configuration used by the HRR scenarios: one TLS 1.3 suite, TLS 1.3 only. -/
def hrrCfg : Config :=
  { supports12 := false, supports13 := true
    cipherSuites := [{ suite := 4865, hashAlg := HashAlg.sha256, usable13 := true }]
    enableTickets := false, enableEarlyData := false, ctLogsPresent := false
    alpnProtocols := [], verifier := VerifierModel.alwaysOk, clientHelloBytes := [1] }

/-- Offered shares used by the HRR scenarios: a single kyber512 share. -/
def hrrHello : ClientHelloDetails :=
  { sentExtensions := [ExtensionType.keyShare, ExtensionType.supportedVersions]
    offeredKeyShares := [{ group := NamedGroup.kyber512, pubkey := SymBytes.lit [3],
                           priv := 0, decapOk := true }] }

/-- HelloRetryRequest that carries a cookie and requests the group the client
already offered; otherwise fully well formed. -/
def c6Hrr : HelloRetryRequest :=
  { cookie := some [9], reqGroup := some NamedGroup.kyber512
    hasUnknownExt := false, hasDupExt := false
    supportedVersions := some ProtocolVersion.TLSv1_3
    cipherSuite := 4865, bodyEnc := SymBytes.lit [4] }

/-- Counterexample to C6: with a cookie present, a HelloRetryRequest that
requests an already-offered group is not rejected with PeerMisbehavedError
and no illegal_parameter alert is sent; the guarded check is skipped and the
handler runs into the assert of the ClientHello re-emission path. -/
theorem claim_C6_counterexample :
    (runHrr hrrCfg hrrHello c6Hrr).snd = HandlerOutcome.panicked panicRetry
    ∧ (runHrr hrrCfg hrrHello c6Hrr).fst.alerts = [] := by
  decide

/-- C6 amended: the already-offered-group rejection only applies to a
HelloRetryRequest without a cookie; a cookieless HRR requesting an offered
group, and a cookieless HRR requesting no change (absent an unknown
extension), are rejected with PeerMisbehavedError and an illegal_parameter
fatal alert. -/
theorem claim_C6_amended (s : Session) (hrr : HelloRetryRequest) (g : NamedGroup) :
    (hrr.cookie = none → hrr.reqGroup = some g → s.hello.hasKeyShare g = true →
      handleHelloRetryRequest s hrr = illegalParam s rsnHrrOurGroup)
    ∧ (hrr.cookie = none → hrr.reqGroup = none → hrr.hasUnknownExt = false →
      handleHelloRetryRequest s hrr =
        illegalParam s (if hrr.hasDupExt then rsnHrrDupExt else rsnHrrNoChanges)) := by
  constructor
  · intro hc hg hshare
    unfold handleHelloRetryRequest
    rw [hc, hg]
    simp [hshare]
  · intro hc hg hunk
    unfold handleHelloRetryRequest
    rw [hc, hg, hunk]
    by_cases hdup : hrr.hasDupExt = true
    · simp [hdup]
    · simp [hdup]

/-- Witness of C6 amended at concrete cookieless HelloRetryRequests. -/
theorem claim_C6_amended_witness :
    (handleHelloRetryRequest (initialSession hrrCfg hrrHello none)
        { cookie := none, reqGroup := some NamedGroup.kyber512, hasUnknownExt := false,
          hasDupExt := false, supportedVersions := some ProtocolVersion.TLSv1_3,
          cipherSuite := 4865, bodyEnc := SymBytes.lit [4] } =
      illegalParam (initialSession hrrCfg hrrHello none) rsnHrrOurGroup)
    ∧ (handleHelloRetryRequest (initialSession hrrCfg hrrHello none)
        { cookie := none, reqGroup := none, hasUnknownExt := false,
          hasDupExt := false, supportedVersions := some ProtocolVersion.TLSv1_3,
          cipherSuite := 4865, bodyEnc := SymBytes.lit [4] } =
      illegalParam (initialSession hrrCfg hrrHello none) rsnHrrNoChanges) := by
  constructor
  · exact (claim_C6_amended (initialSession hrrCfg hrrHello none)
      { cookie := none, reqGroup := some NamedGroup.kyber512, hasUnknownExt := false,
        hasDupExt := false, supportedVersions := some ProtocolVersion.TLSv1_3,
        cipherSuite := 4865, bodyEnc := SymBytes.lit [4] } NamedGroup.kyber512).1
      rfl rfl (by decide)
  · exact ((claim_C6_amended (initialSession hrrCfg hrrHello none)
      { cookie := none, reqGroup := none, hasUnknownExt := false,
        hasDupExt := false, supportedVersions := some ProtocolVersion.TLSv1_3,
        cipherSuite := 4865, bodyEnc := SymBytes.lit [4] } NamedGroup.kyber512).2
      rfl rfl rfl).trans (by decide)

end Rustls

namespace Rustls

/-- HelloRetryRequest that passes every validity check: cookie present and
non-empty, requested group x25519 supported and not offered, TLS 1.3
indicated, offered suite, no unknown or duplicate extensions. -/
def c7Hrr : HelloRetryRequest :=
  { cookie := some [9], reqGroup := some NamedGroup.x25519
    hasUnknownExt := false, hasDupExt := false
    supportedVersions := some ProtocolVersion.TLSv1_3
    cipherSuite := 4865, bodyEnc := SymBytes.lit [4] }

/-- C7: a HelloRetryRequest that passes all validity checks performs the
transcript rollup and the HRR append, and then panics at the
assert of emit_client_hello_for_retry instead of re-emitting a ClientHello;
the assertion is reachable on this input. -/
theorem claim_C7 :
    (runHrr hrrCfg hrrHello c7Hrr).snd = HandlerOutcome.panicked panicRetry
    ∧ (runHrr hrrCfg hrrHello c7Hrr).fst.transcript.buffer =
      [SymBytes.mhash HashAlg.sha256
        (packEntries [SymBytes.msgEnc HType.clientHello (SymBytes.lit [1])]),
       SymBytes.msgEnc HType.helloRetryRequest (SymBytes.lit [4])] := by
  decide

end Rustls

namespace Rustls

/-- Session in the ExpectTLS13Certificate state whose configuration carries
the spec-modelled verifier. -/
def c8Session : Session :=
  initialSession
    { supports12 := false, supports13 := true
      cipherSuites := [{ suite := 4865, hashAlg := HashAlg.sha256, usable13 := true }]
      enableTickets := false, enableEarlyData := false, ctLogsPresent := false
      alpnProtocols := [], verifier := VerifierModel.specVerifier, clientHelloBytes := [1] }
    { sentExtensions := [], offeredKeyShares := [] } none

/-- Certificate message with an empty chain and otherwise valid payload. -/
def c8Msg : CertificatePayloadTLS13 :=
  { context := [], entries := [], anyEntryDup := false, anyEntryUnknown := false
    eeOcsp := none, eeScts := none, bodyEnc := SymBytes.lit [5] }

/-- Counterexample to C8: on an empty chain the ExpectTLS13Certificate
handler does not reject before attempting verification; it hands the empty
chain to the certificate verifier (the trace records the verification of the
empty chain before any error), and the NoCertificatesPresented error comes
out of the verifier collaborator, accompanied by a bad_certificate alert
rather than preceding verification. -/
theorem claim_C8_counterexample :
    (handleCertificateTLS13 c8Session c8Msg).fst.events =
      [Event.addedToTranscript (SymBytes.msgEnc HType.certificate (SymBytes.lit [5])),
       Event.verifiedChain [],
       Event.sentAlert AlertDescription.badCertificate]
    ∧ (handleCertificateTLS13 c8Session c8Msg).snd =
        HandlerOutcome.fail TLSError.noCertificatesPresented := by
  decide

/-- C8 amended: the TLS 1.3 Certificate handler performs no emptiness check
of its own; it passes the empty chain to the configured verifier, and with
the verifier modelled from the spec the result is the NoCertificatesPresented
error, after chain verification was attempted and with a bad_certificate
alert, and without running any KEMTLS implicit-authentication step. -/
theorem claim_C8_amended (s : Session) (cp : CertificatePayloadTLS13)
    (hctx : cp.context = []) (hdup : cp.anyEntryDup = false)
    (hunk : cp.anyEntryUnknown = false) (hchain : cp.entries = [])
    (hscts : cp.eeScts = none) (hver : s.cfg.verifier = VerifierModel.specVerifier) :
    handleCertificateTLS13 s cp =
      ({ s with
           transcript := s.transcript.addEntry (SymBytes.msgEnc HType.certificate cp.bodyEnc)
           serverCert := { certChain := [], ocsp := cp.eeOcsp, scts := none }
           alerts := s.alerts ++ [AlertDescription.badCertificate]
           events := s.events ++
             [Event.addedToTranscript (SymBytes.msgEnc HType.certificate cp.bodyEnc),
              Event.verifiedChain [], Event.sentAlert AlertDescription.badCertificate] },
       HandlerOutcome.fail TLSError.noCertificatesPresented) := by
  unfold handleCertificateTLS13
  simp [hctx, hdup, hunk, hchain, hscts, Session.addMsg, Session.push,
    Session.sendFatalAlert, sendCertErrorAlert, VerifierModel.run, hver,
    HandshakeHash.addEntry]

/-- Witness of C8 amended at the concrete empty-chain input. -/
theorem claim_C8_amended_witness :
    handleCertificateTLS13 c8Session c8Msg =
      ({ c8Session with
           transcript := c8Session.transcript.addEntry
             (SymBytes.msgEnc HType.certificate c8Msg.bodyEnc)
           serverCert := { certChain := [], ocsp := c8Msg.eeOcsp, scts := none }
           alerts := c8Session.alerts ++ [AlertDescription.badCertificate]
           events := c8Session.events ++
             [Event.addedToTranscript (SymBytes.msgEnc HType.certificate c8Msg.bodyEnc),
              Event.verifiedChain [], Event.sentAlert AlertDescription.badCertificate] },
       HandlerOutcome.fail TLSError.noCertificatesPresented) :=
  claim_C8_amended c8Session c8Msg rfl rfl rfl rfl rfl rfl

end Rustls

namespace Rustls

/-- Session in the ExpectTLS13Certificate state with a verifier that accepts
the presented chain. -/
def c1Session : Session :=
  { initialSession
      { supports12 := false, supports13 := true
        cipherSuites := [{ suite := 4865, hashAlg := HashAlg.sha256, usable13 := true }]
        enableTickets := false, enableEarlyData := false, ctLogsPresent := false
        alpnProtocols := [], verifier := VerifierModel.alwaysOk, clientHelloBytes := [1] }
      { sentExtensions := [], offeredKeyShares := [] } none with
    ks := some (KeySchedule.new HashAlg.sha256) }

/-- Certificate message whose end-entity certificate is a parseable signed
(non-KEM) certificate: encapsulation to it is impossible. -/
def c1Msg : CertificatePayloadTLS13 :=
  { context := [], entries := [{ blob := [8], parseOk := true, isKem := false,
                                 pk := SymBytes.lit [7], pkOk := true, encapOk := false }]
    anyEntryDup := false, anyEntryUnknown := false
    eeOcsp := none, eeScts := none, bodyEnc := SymBytes.lit [5] }

/-- Counterexample to C1: on an accepted Certificate message whose end-entity
certificate does not carry a KEM public key, the handler does not transition
to ExpectTLS13CertificateVerify; it enters the KEMTLS path unconditionally
and panics when the encapsulation unwrap fails. -/
theorem claim_C1_counterexample :
    (handleCertificateTLS13 c1Session c1Msg).snd = HandlerOutcome.panicked panicEncap
    ∧ (handleCertificateTLS13 c1Session c1Msg).snd ≠
        HandlerOutcome.next NextSt.expectTLS13CertificateVerify := by
  decide

end Rustls

namespace Rustls

/-- C1 amended: ExpectTLS13Certificate::handle never transitions to
ExpectTLS13CertificateVerify, for KEM and non-KEM certificates alike; every
accepted Certificate message is driven into the KEMTLS implicit
authentication path (which panics when encapsulation is impossible). -/
theorem claim_C1_amended : ∀ (s : Session) (cp : CertificatePayloadTLS13),
    (handleCertificateTLS13 s cp).snd ≠
      HandlerOutcome.next NextSt.expectTLS13CertificateVerify := by
  intro s cp h
  unfold handleCertificateTLS13 at h
  dsimp only at h
  repeat' split at h
  all_goals try injection h
  all_goals contradiction

end Rustls

namespace Rustls

set_option maxHeartbeats 1000000 in
/-- C2: on a server Certificate whose end-entity certificate supports KEM
encapsulation and whose chain verifies, the handler performs, in order:
encapsulation to the server public key, transcript append and emission of a
ClientKeyExchange carrying the ciphertext under the write key in force (the
handshake-traffic epoch; the authenticated keys are only installed later in
the trace), injection of the shared secret, the derive_with_hash ratchet at
the post-ClientKeyExchange transcript hash, derivation of the client and
server authenticated-handshake traffic secrets at that hash installed as
write and read keys, then emission of the client Finished under the new
write key, and transitions to ExpectTLS13Finished, a state that does not
accept a CertificateVerify message. -/
theorem claim_C2 (s : Session) (ks : KeySchedule) (cert : Cert) (rest : List Cert)
    (ocsp : Option (List Nat)) (body : SymBytes)
    (hks : s.ks = some ks) (hjoin : s.joinerEmpty = true)
    (hver : s.cfg.verifier = VerifierModel.alwaysOk)
    (hparse : cert.parseOk = true) (hpk : cert.pkOk = true) (hencap : cert.encapOk = true) :
    (handleCertificateTLS13 s
      { context := [], entries := cert :: rest, anyEntryDup := false,
        anyEntryUnknown := false, eeOcsp := ocsp, eeScts := none, bodyEnc := body }).snd
      = HandlerOutcome.next NextSt.expectTLS13Finished
    ∧ (handleCertificateTLS13 s
      { context := [], entries := cert :: rest, anyEntryDup := false,
        anyEntryUnknown := false, eeOcsp := ocsp, eeScts := none, bodyEnc := body }).fst.events
      = s.events ++
        (let eCert := SymBytes.msgEnc HType.certificate body
         let eCkx := SymBytes.msgEnc HType.clientKeyExchange (SymBytes.encapCt cert.pk)
         let t1 := (s.transcript.addEntry eCert).addEntry eCkx
         let h1 := t1.getCurrentHash
         let ks1 := (ks.inputSecret (SymBytes.encapSs cert.pk)).deriveWithHash h1
         let wk := ks1.derive SecretKind.ClientAuthenticatedHandshakeTrafficSecret h1
         let ks2 := { ks1 with currentClientTrafficSecret := wk }
         let rk := ks2.derive SecretKind.ServerAuthenticatedHandshakeTrafficSecret h1
         let ks3 := { ks2 with currentServerTrafficSecret := rk }
         let vd := ks3.signFinish SecretKind.ClientAuthenticatedHandshakeTrafficSecret h1
         let eFin := SymBytes.msgEnc HType.finished vd
         let h2 := (t1.addEntry eFin).getCurrentHash
         let appk := ks3.derive SecretKind.ClientApplicationTrafficSecret h2
         [Event.addedToTranscript eCert,
          Event.verifiedChain (cert :: rest),
          Event.encapsulated cert.pk,
          Event.addedToTranscript eCkx,
          Event.sentMsg (some HType.clientKeyExchange) true s.encrypter,
          Event.injectedSecret (SymBytes.encapSs cert.pk),
          Event.ratcheted h1,
          Event.derivedKey SecretKind.ClientAuthenticatedHandshakeTrafficSecret h1,
          Event.installedEncrypter wk,
          Event.derivedKey SecretKind.ServerAuthenticatedHandshakeTrafficSecret h1,
          Event.installedDecrypter rk,
          Event.addedToTranscript eFin,
          Event.sentMsg (some HType.finished) true (some wk),
          Event.derivedKey SecretKind.ClientApplicationTrafficSecret h2,
          Event.installedEncrypter appk,
          Event.startedTraffic])
    ∧ expectTLS13FinishedCheckMessage HType.certificateVerify = false := by
  refine ⟨?_, ?_, by decide⟩ <;>
  · unfold handleCertificateTLS13 emitClientkxKem emitFinishedTLS13
    simp [hks, hjoin, hver, hparse, hpk, hencap, Session.addMsg, Session.push,
      Session.sendHs, Session.setMessageEncrypter, Session.setMessageDecrypter,
      VerifierModel.run, sctListIsInvalid, HandshakeHash.addEntry,
      HandshakeHash.getCurrentHash, KeySchedule.inputSecret, KeySchedule.deriveWithHash,
      KeySchedule.derive, KeySchedule.signFinish, SecretKind.forServer, packEntries]

end Rustls

namespace Rustls

/-- KEM-capable end-entity certificate used by the C2 witness. -/
def c2Cert : Cert :=
  { blob := [8], parseOk := true, isKem := true, pk := SymBytes.lit [7],
    pkOk := true, encapOk := true }

/-- Witness of C2 at a concrete session and KEM certificate chain. -/
theorem claim_C2_witness :
    (handleCertificateTLS13 c1Session
      { context := [], entries := c2Cert :: [], anyEntryDup := false,
        anyEntryUnknown := false, eeOcsp := none, eeScts := none,
        bodyEnc := SymBytes.lit [5] }).snd
      = HandlerOutcome.next NextSt.expectTLS13Finished :=
  (claim_C2 c1Session (KeySchedule.new HashAlg.sha256) c2Cert [] none (SymBytes.lit [5])
    rfl rfl rfl rfl rfl rfl).1

end Rustls

namespace Rustls

/-- Configuration of the resumption scenario: tickets enabled, one TLS 1.3
suite. -/
def resumeCfg : Config :=
  { supports12 := false, supports13 := true
    cipherSuites := [{ suite := 4865, hashAlg := HashAlg.sha256, usable13 := true }]
    enableTickets := true, enableEarlyData := false, ctLogsPresent := false
    alpnProtocols := [], verifier := VerifierModel.alwaysOk, clientHelloBytes := [1] }

/-- Offered extensions and key share of the resumption scenario. -/
def resumeHello : ClientHelloDetails :=
  { sentExtensions := [ExtensionType.keyShare, ExtensionType.supportedVersions,
                       ExtensionType.preSharedKey]
    offeredKeyShares := [{ group := NamedGroup.kyber512, pubkey := SymBytes.lit [3],
                           priv := 0, decapOk := true }] }

/-- Cached TLS 1.3 session with master secret ms. -/
def resumeSession (ms : SymBytes) : ResumingSession :=
  { version := ProtocolVersion.TLSv1_3, cipherSuite := 4865, masterSecret := ms,
    ticket := [2], maxEarlyDataSize := 0 }

/-- ServerHello selecting the offered PSK at index 0. -/
def resumeSh (pay shBody : SymBytes) : ServerHelloPayload :=
  { legacyVersion := ProtocolVersion.TLSv1_2
    supportedVersions := some ProtocolVersion.TLSv1_3
    cipherSuite := 4865, compressionMethod := Compression.null
    extTypes := [ExtensionType.keyShare, ExtensionType.preSharedKey,
                 ExtensionType.supportedVersions]
    hasDupExt := false, pskIndex := some 0
    keyShare := some { group := NamedGroup.kyber512, payload := pay }
    ecpoints := none, alpn := none, bodyEnc := shBody }

/-- EncryptedExtensions of the resumption scenario. -/
def resumeEe (eeBody : SymBytes) : EncryptedExtensions :=
  { extTypes := [], hasDupExt := false, alpn := none, earlyDataOffered := false,
    bodyEnc := eeBody }

set_option maxHeartbeats 1000000 in
/-- C3: the expected verify_data of a server Finished is the HMAC under the
finished key of the current server traffic secret over the current
transcript hash (the handler accepts exactly that value); in the KEMTLS flow
the current server traffic secret at that point is the server
authenticated-handshake derivation, while in the resumption flow, which
reaches ExpectTLS13Finished without a ClientKeyExchange, it is the server
handshake-traffic derivation. -/
theorem claim_C3 (s : Session) (ks : KeySchedule) (cert : Cert) (rest : List Cert)
    (ocsp : Option (List Nat)) (body : SymBytes) (ms pay shBody eeBody : SymBytes)
    (hks : s.ks = some ks) (hjoin : s.joinerEmpty = true)
    (hver : s.cfg.verifier = VerifierModel.alwaysOk)
    (hparse : cert.parseOk = true) (hpk : cert.pkOk = true) (hencap : cert.encapOk = true) :
    (∀ (s2 : Session) (ks2 : KeySchedule) (fin : FinishedPayload), s2.ks = some ks2 →
      ((handleFinishedTLS13 s2 fin).snd = HandlerOutcome.next NextSt.expectTLS13Traffic ↔
        fin.verifyData = SymBytes.hmac
          (SymBytes.expandLabel ks2.currentServerTrafficSecret lblFinished SymBytes.emptyCtx)
          s2.transcript.getCurrentHash))
    ∧ ((handleCertificateTLS13 s
        { context := [], entries := cert :: rest, anyEntryDup := false,
          anyEntryUnknown := false, eeOcsp := ocsp, eeScts := none,
          bodyEnc := body }).fst.ks).map KeySchedule.currentServerTrafficSecret
      = some
        (let eCert := SymBytes.msgEnc HType.certificate body
         let eCkx := SymBytes.msgEnc HType.clientKeyExchange (SymBytes.encapCt cert.pk)
         let h1 := ((s.transcript.addEntry eCert).addEntry eCkx).getCurrentHash
         ((ks.inputSecret (SymBytes.encapSs cert.pk)).deriveWithHash h1).derive
           SecretKind.ServerAuthenticatedHandshakeTrafficSecret h1)
    ∧ ((runResumeToFinished resumeCfg resumeHello (resumeSession ms)
          (resumeSh pay shBody) (resumeEe eeBody)).snd
        = HandlerOutcome.next NextSt.expectTLS13Finished
      ∧ ((runResumeToFinished resumeCfg resumeHello (resumeSession ms)
          (resumeSh pay shBody) (resumeEe eeBody)).fst.ks).map
            KeySchedule.currentServerTrafficSecret
        = some
          (let eCh := SymBytes.msgEnc HType.clientHello (SymBytes.lit [1])
           let eSh := SymBytes.msgEnc HType.serverHello shBody
           let hsh := SymBytes.thash HashAlg.sha256 (packEntries [eCh, eSh])
           (((KeySchedule.new HashAlg.sha256).inputSecret ms).inputSecret
              (SymBytes.decapSs 0 pay)).derive
             SecretKind.ServerHandshakeTrafficSecret hsh)) := by
  refine ⟨?_, ?_, ?_⟩
  · intro s2 ks2 fin h
    unfold handleFinishedTLS13
    rw [h]
    simp only [KeySchedule.signFinish, SecretKind.forServer, if_true]
    by_cases hc : fin.verifyData = SymBytes.hmac
        (SymBytes.expandLabel ks2.currentServerTrafficSecret lblFinished SymBytes.emptyCtx)
        s2.transcript.getCurrentHash
    · simp [hc]
    · simp [hc]
  · unfold handleCertificateTLS13 emitClientkxKem emitFinishedTLS13
    simp [hks, hjoin, hver, hparse, hpk, hencap, Session.addMsg, Session.push,
      Session.sendHs, Session.setMessageEncrypter, Session.setMessageDecrypter,
      VerifierModel.run, sctListIsInvalid, HandshakeHash.addEntry,
      HandshakeHash.getCurrentHash, KeySchedule.inputSecret, KeySchedule.deriveWithHash,
      KeySchedule.derive, KeySchedule.signFinish, SecretKind.forServer, packEntries]
  · exact ⟨rfl, rfl⟩

end Rustls

namespace Rustls

/-- Witness of C3: the generic Finished formula applied at a concrete
session, together with concrete KEMTLS-flow inputs. -/
theorem claim_C3_witness :
    (handleFinishedTLS13 c4Session { verifyData := SymBytes.lit [0] }).snd
        = HandlerOutcome.next NextSt.expectTLS13Traffic ↔
      SymBytes.lit [0] = SymBytes.hmac
        (SymBytes.expandLabel (KeySchedule.new HashAlg.sha256).currentServerTrafficSecret
          lblFinished SymBytes.emptyCtx)
        c4Session.transcript.getCurrentHash :=
  (claim_C3 c1Session (KeySchedule.new HashAlg.sha256) c2Cert [] none (SymBytes.lit [5])
    SymBytes.zeroes SymBytes.zeroes SymBytes.zeroes SymBytes.zeroes
    rfl rfl rfl rfl rfl rfl).1 c4Session (KeySchedule.new HashAlg.sha256)
    { verifyData := SymBytes.lit [0] } rfl

end Rustls

namespace Rustls

/-- ServerHello of the full KEMTLS scenario (no PSK). -/
def kemtlsSh (pay shBody : SymBytes) : ServerHelloPayload :=
  { legacyVersion := ProtocolVersion.TLSv1_2
    supportedVersions := some ProtocolVersion.TLSv1_3
    cipherSuite := 4865, compressionMethod := Compression.null
    extTypes := [ExtensionType.keyShare, ExtensionType.supportedVersions]
    hasDupExt := false, pskIndex := none
    keyShare := some { group := NamedGroup.kyber512, payload := pay }
    ecpoints := none, alpn := none, bodyEnc := shBody }

/-- EncryptedExtensions of the full KEMTLS scenario. -/
def kemtlsEe (eeBody : SymBytes) : EncryptedExtensions :=
  { extTypes := [], hasDupExt := false, alpn := none, earlyDataOffered := false,
    bodyEnc := eeBody }

/-- Certificate message of the full KEMTLS scenario: one KEM-capable
end-entity certificate with public key pk. -/
def kemtlsCp (pk certBody : SymBytes) : CertificatePayloadTLS13 :=
  { context := [], entries := [{ blob := [8], parseOk := true, isKem := true,
                                 pk := pk, pkOk := true, encapOk := true }]
    anyEntryDup := false, anyEntryUnknown := false
    eeOcsp := none, eeScts := none, bodyEnc := certBody }

/-- Well-formed HelloRetryRequest with an abstract body. -/
def hrrGoodMsg (hrrBody : SymBytes) : HelloRetryRequest :=
  { cookie := some [9], reqGroup := some NamedGroup.x25519
    hasUnknownExt := false, hasDupExt := false
    supportedVersions := some ProtocolVersion.TLSv1_3
    cipherSuite := 4865, bodyEnc := hrrBody }

end Rustls

namespace Rustls

/-- Acceptance lemma of the Finished handler: when the received verify_data
is exactly the expected value, the handler succeeds and the Finished message
is appended to the transcript. -/
theorem handleFinishedAccept (s : Session) (fin : FinishedPayload)
    (hfin : finishedExpectedVd s = some fin.verifyData) :
    (handleFinishedTLS13 s fin).snd = HandlerOutcome.next NextSt.expectTLS13Traffic
    ∧ (handleFinishedTLS13 s fin).fst.transcript.buffer
        = s.transcript.buffer ++ [SymBytes.msgEnc HType.finished fin.verifyData] := by
  match hks : s.ks with
  | none => simp [finishedExpectedVd, hks] at hfin
  | some ks =>
    simp only [finishedExpectedVd, hks, Option.map, Option.some.injEq] at hfin
    unfold handleFinishedTLS13
    rw [hks]
    simp [← hfin, Session.addMsg, Session.push, Session.setMessageDecrypter,
      HandshakeHash.addEntry]

end Rustls

namespace Rustls

/-- Reason string of the incompatible certificate-request schemes error. -/
def rsnBadCertreqSchemes : String := "server sent bad certreq schemes"

/-- Modelled from the spec: sign.rs is not under src; the TLS 1.3 signing
schemes of this build are the PQ signature schemes of the generated table. -/
def supportedSignTls13 : List SignatureScheme := pqSigschemes

/-- TLS 1.3 CertificateRequest payload at accessor level. -/
structure CertificateRequestPayload where
  context : List Nat
  sigalgs : Option (List SignatureScheme)
  bodyEnc : SymBytes
  deriving DecidableEq

/-- Handler of the ExpectTLS13CertificateRequest state (hs.rs 1945-2008):
append to the transcript, reject a non-empty context and an empty
intersection of signature schemes, then consult the client-auth resolver and
move to ExpectTLS13Certificate.  The resulting ClientAuthDetails is carried
to the successor but never read in this build (client-auth emission in the
Finished handler is commented out), so it is not part of the session model. -/
def handleCertificateRequestTLS13 (s : Session) (cr : CertificateRequestPayload) :
    Session × HandlerOutcome :=
  let s := s.addMsg HType.certificateRequest cr.bodyEnc
  if !cr.context.isEmpty then
    (s.sendFatalAlert AlertDescription.decodeError,
     HandlerOutcome.fail (TLSError.corruptMessagePayload ContentType.handshake))
  else
    let compatSigschemes :=
      (cr.sigalgs.getD []).filter (fun scheme => supportedSignTls13.contains scheme)
    if compatSigschemes.isEmpty then
      (s.sendFatalAlert AlertDescription.handshakeFailure,
       HandlerOutcome.fail (TLSError.peerIncompatibleError rsnBadCertreqSchemes))
    else
      (s, HandlerOutcome.next NextSt.expectTLS13Certificate)

/-- Full-handshake composition through a CertificateRequest: the
ExpectTLS13CertificateOrCertReq state dispatches a CertificateRequest to its
own handler and the following Certificate to the Certificate handler. -/
def runKemtlsCertReqToFinished (cfg : Config) (hello : ClientHelloDetails)
    (sh : ServerHelloPayload) (ee : EncryptedExtensions)
    (cr : CertificateRequestPayload) (cp : CertificatePayloadTLS13) :
    Session × HandlerOutcome :=
  match emitClientHelloForRetry (initialSession cfg hello none) none with
  | (s, HandlerOutcome.next NextSt.expectServerHelloOrHelloRetryRequest) =>
    match handleServerHello s sh with
    | (s, HandlerOutcome.next NextSt.expectTLS13EncryptedExtensions) =>
      match handleEncryptedExtensions s ee with
      | (s, HandlerOutcome.next NextSt.expectTLS13CertificateOrCertReq) =>
        match handleCertificateRequestTLS13 s cr with
        | (s, HandlerOutcome.next NextSt.expectTLS13Certificate) =>
          handleCertificateTLS13 s cp
        | o => o
      | o => o
    | o => o
  | o => o

/-- KEMTLS composition with CertificateRequest including the server Finished. -/
def runKemtlsCertReq (cfg : Config) (hello : ClientHelloDetails)
    (sh : ServerHelloPayload) (ee : EncryptedExtensions)
    (cr : CertificateRequestPayload) (cp : CertificatePayloadTLS13)
    (fin : FinishedPayload) : Session × HandlerOutcome :=
  match runKemtlsCertReqToFinished cfg hello sh ee cr cp with
  | (s, HandlerOutcome.next NextSt.expectTLS13Finished) => handleFinishedTLS13 s fin
  | o => o

/-- Server Finished carrying exactly the verify_data the client expects in
the state a partial run stopped in. -/
def acceptingFin (r : Session × HandlerOutcome) : FinishedPayload :=
  { verifyData := (finishedExpectedVd r.fst).getD SymBytes.zeroes }

/-- Configuration family of the C5 full handshakes: one TLS 1.3 suite over an
arbitrary hash algorithm, arbitrary assembled ClientHello bytes. -/
def c5Cfg (a : HashAlg) (chB : List Nat) : Config :=
  { supports12 := false, supports13 := true
    cipherSuites := [{ suite := 4865, hashAlg := a, usable13 := true }]
    enableTickets := false, enableEarlyData := false, ctLogsPresent := false
    alpnProtocols := [], verifier := VerifierModel.alwaysOk, clientHelloBytes := chB }

/-- Offered shares of the C5 full handshakes: one kyber512 share with
arbitrary public half and private handle. -/
def c5Hello (pub : SymBytes) (n : Nat) : ClientHelloDetails :=
  { sentExtensions := [ExtensionType.keyShare, ExtensionType.supportedVersions]
    offeredKeyShares := [{ group := NamedGroup.kyber512, pubkey := pub, priv := n,
                           decapOk := true }] }

/-- CertificateRequest message of the C5 CertificateRequest flow. -/
def c5CertReq (crBody : SymBytes) : CertificateRequestPayload :=
  { context := [], sigalgs := some [SignatureScheme.DILITHIUM2], bodyEnc := crBody }

/-- Resumption configuration family of C5: tickets enabled, arbitrary
ClientHello bytes; the flag controls early data. -/
def c5RCfg (early : Bool) (chB : List Nat) : Config :=
  { supports12 := false, supports13 := true
    cipherSuites := [{ suite := 4865, hashAlg := HashAlg.sha256, usable13 := true }]
    enableTickets := true, enableEarlyData := early, ctLogsPresent := false
    alpnProtocols := [], verifier := VerifierModel.alwaysOk, clientHelloBytes := chB }

/-- Offered shares and extensions of the C5 resumption flows. -/
def c5RHello (pub : SymBytes) (n : Nat) : ClientHelloDetails :=
  { sentExtensions := [ExtensionType.keyShare, ExtensionType.supportedVersions,
                       ExtensionType.preSharedKey]
    offeredKeyShares := [{ group := NamedGroup.kyber512, pubkey := pub, priv := n,
                           decapOk := true }] }

/-- Cached TLS 1.3 session of the 0-RTT resumption flow, with early data
permitted by the ticket. -/
def earlySession (ms : SymBytes) : ResumingSession :=
  { version := ProtocolVersion.TLSv1_3, cipherSuite := 4865, masterSecret := ms,
    ticket := [2], maxEarlyDataSize := 5 }

/-- EncryptedExtensions accepting the offered early data. -/
def earlyEe (eeBody : SymBytes) : EncryptedExtensions :=
  { extTypes := [], hasDupExt := false, alpn := none, earlyDataOffered := true,
    bodyEnc := eeBody }

end Rustls

namespace Rustls

/-- Wire-order transcript entries of the accepted KEMTLS handshake. -/
def c5Entries (a : HashAlg) (chB : List Nat) (n : Nat)
    (pay shBody eeBody pk certBody : SymBytes) : List SymBytes :=
  let eCh := SymBytes.msgEnc HType.clientHello (SymBytes.lit chB)
  let eSh := SymBytes.msgEnc HType.serverHello shBody
  let eEe := SymBytes.msgEnc HType.encryptedExtensions eeBody
  let eCert := SymBytes.msgEnc HType.certificate certBody
  let eCkx := SymBytes.msgEnc HType.clientKeyExchange (SymBytes.encapCt pk)
  let h1 := SymBytes.thash a (packEntries [eCh, eSh, eEe, eCert, eCkx])
  let ksA := ((((KeySchedule.new a).inputEmpty).inputSecret
     (SymBytes.decapSs n pay)).inputSecret (SymBytes.encapSs pk)).deriveWithHash h1
  let wk := ksA.derive SecretKind.ClientAuthenticatedHandshakeTrafficSecret h1
  let rk := ksA.derive SecretKind.ServerAuthenticatedHandshakeTrafficSecret h1
  let vdC := SymBytes.hmac (SymBytes.expandLabel wk lblFinished SymBytes.emptyCtx) h1
  let eCFin := SymBytes.msgEnc HType.finished vdC
  let h3 := SymBytes.thash a (packEntries [eCh, eSh, eEe, eCert, eCkx, eCFin])
  let vdS := SymBytes.hmac (SymBytes.expandLabel rk lblFinished SymBytes.emptyCtx) h3
  let eSFin := SymBytes.msgEnc HType.finished vdS
  [eCh, eSh, eEe, eCert, eCkx, eCFin, eSFin]

/-- Wire-order transcript entries of the accepted KEMTLS handshake with a
CertificateRequest. -/
def c5CertReqEntries (a : HashAlg) (chB : List Nat) (n : Nat)
    (pay shBody eeBody crBody pk certBody : SymBytes) : List SymBytes :=
  let eCh := SymBytes.msgEnc HType.clientHello (SymBytes.lit chB)
  let eSh := SymBytes.msgEnc HType.serverHello shBody
  let eEe := SymBytes.msgEnc HType.encryptedExtensions eeBody
  let eCrq := SymBytes.msgEnc HType.certificateRequest crBody
  let eCert := SymBytes.msgEnc HType.certificate certBody
  let eCkx := SymBytes.msgEnc HType.clientKeyExchange (SymBytes.encapCt pk)
  let h1 := SymBytes.thash a (packEntries [eCh, eSh, eEe, eCrq, eCert, eCkx])
  let ksA := ((((KeySchedule.new a).inputEmpty).inputSecret
     (SymBytes.decapSs n pay)).inputSecret (SymBytes.encapSs pk)).deriveWithHash h1
  let wk := ksA.derive SecretKind.ClientAuthenticatedHandshakeTrafficSecret h1
  let rk := ksA.derive SecretKind.ServerAuthenticatedHandshakeTrafficSecret h1
  let vdC := SymBytes.hmac (SymBytes.expandLabel wk lblFinished SymBytes.emptyCtx) h1
  let eCFin := SymBytes.msgEnc HType.finished vdC
  let h3 := SymBytes.thash a (packEntries [eCh, eSh, eEe, eCrq, eCert, eCkx, eCFin])
  let vdS := SymBytes.hmac (SymBytes.expandLabel rk lblFinished SymBytes.emptyCtx) h3
  let eSFin := SymBytes.msgEnc HType.finished vdS
  [eCh, eSh, eEe, eCrq, eCert, eCkx, eCFin, eSFin]

/-- Wire-order transcript entries of the accepted resumption handshake (with
or without early data): no ClientKeyExchange, no client Finished. -/
def c5ResumeEntries (chB : List Nat) (n : Nat) (ms pay shBody eeBody : SymBytes) :
    List SymBytes :=
  let eCh := SymBytes.msgEnc HType.clientHello (SymBytes.lit chB)
  let eSh := SymBytes.msgEnc HType.serverHello shBody
  let eEe := SymBytes.msgEnc HType.encryptedExtensions eeBody
  let hSh := SymBytes.thash HashAlg.sha256 (packEntries [eCh, eSh])
  let rk := (((KeySchedule.new HashAlg.sha256).inputSecret ms).inputSecret
    (SymBytes.decapSs n pay)).derive SecretKind.ServerHandshakeTrafficSecret hSh
  let hFin := SymBytes.thash HashAlg.sha256 (packEntries [eCh, eSh, eEe])
  let vdS := SymBytes.hmac (SymBytes.expandLabel rk lblFinished SymBytes.emptyCtx) hFin
  [eCh, eSh, eEe, SymBytes.msgEnc HType.finished vdS]

end Rustls

namespace Rustls

set_option maxHeartbeats 2000000 in
/-- C5: in every accepted handshake of this state machine, every handshake
message processed or emitted appears in the transcript exactly once, in wire
order, and on HelloRetryRequest the buffered first ClientHello is replaced
by its message hash via the rollup before the HRR itself is appended.  The
accepted flow shapes are the KEMTLS full handshake without and with a
CertificateRequest and the PSK resumption without and with early data, each
quantified over the hash algorithm or master secret, the assembled
ClientHello bytes, the key-share material and every message payload. -/
theorem claim_C5 (a : HashAlg) (chB : List Nat) (n : Nat)
    (pub ms pay shBody eeBody crBody pk certBody hrrBody : SymBytes) :
    ((runKemtls (c5Cfg a chB) (c5Hello pub n) (kemtlsSh pay shBody) (kemtlsEe eeBody)
        (kemtlsCp pk certBody)
        (acceptingFin (runKemtlsToFinished (c5Cfg a chB) (c5Hello pub n)
          (kemtlsSh pay shBody) (kemtlsEe eeBody) (kemtlsCp pk certBody)))).snd
      = HandlerOutcome.next NextSt.expectTLS13Traffic
     ∧ (runKemtls (c5Cfg a chB) (c5Hello pub n) (kemtlsSh pay shBody) (kemtlsEe eeBody)
        (kemtlsCp pk certBody)
        (acceptingFin (runKemtlsToFinished (c5Cfg a chB) (c5Hello pub n)
          (kemtlsSh pay shBody) (kemtlsEe eeBody)
          (kemtlsCp pk certBody)))).fst.transcript.buffer
      = c5Entries a chB n pay shBody eeBody pk certBody
     ∧ (c5Entries a chB n pay shBody eeBody pk certBody).Nodup)
    ∧ ((runKemtlsCertReq (c5Cfg a chB) (c5Hello pub n) (kemtlsSh pay shBody)
        (kemtlsEe eeBody) (c5CertReq crBody) (kemtlsCp pk certBody)
        (acceptingFin (runKemtlsCertReqToFinished (c5Cfg a chB) (c5Hello pub n)
          (kemtlsSh pay shBody) (kemtlsEe eeBody) (c5CertReq crBody)
          (kemtlsCp pk certBody)))).snd
      = HandlerOutcome.next NextSt.expectTLS13Traffic
     ∧ (runKemtlsCertReq (c5Cfg a chB) (c5Hello pub n) (kemtlsSh pay shBody)
        (kemtlsEe eeBody) (c5CertReq crBody) (kemtlsCp pk certBody)
        (acceptingFin (runKemtlsCertReqToFinished (c5Cfg a chB) (c5Hello pub n)
          (kemtlsSh pay shBody) (kemtlsEe eeBody) (c5CertReq crBody)
          (kemtlsCp pk certBody)))).fst.transcript.buffer
      = c5CertReqEntries a chB n pay shBody eeBody crBody pk certBody
     ∧ (c5CertReqEntries a chB n pay shBody eeBody crBody pk certBody).Nodup)
    ∧ ((runResume (c5RCfg false chB) (c5RHello pub n) (resumeSession ms)
        (resumeSh pay shBody) (resumeEe eeBody)
        (acceptingFin (runResumeToFinished (c5RCfg false chB) (c5RHello pub n)
          (resumeSession ms) (resumeSh pay shBody) (resumeEe eeBody)))).snd
      = HandlerOutcome.next NextSt.expectTLS13Traffic
     ∧ (runResume (c5RCfg false chB) (c5RHello pub n) (resumeSession ms)
        (resumeSh pay shBody) (resumeEe eeBody)
        (acceptingFin (runResumeToFinished (c5RCfg false chB) (c5RHello pub n)
          (resumeSession ms) (resumeSh pay shBody)
          (resumeEe eeBody)))).fst.transcript.buffer
      = c5ResumeEntries chB n ms pay shBody eeBody
     ∧ (c5ResumeEntries chB n ms pay shBody eeBody).Nodup)
    ∧ ((runResume (c5RCfg true chB) (c5RHello pub n) (earlySession ms)
        (resumeSh pay shBody) (earlyEe eeBody)
        (acceptingFin (runResumeToFinished (c5RCfg true chB) (c5RHello pub n)
          (earlySession ms) (resumeSh pay shBody) (earlyEe eeBody)))).snd
      = HandlerOutcome.next NextSt.expectTLS13Traffic
     ∧ (runResume (c5RCfg true chB) (c5RHello pub n) (earlySession ms)
        (resumeSh pay shBody) (earlyEe eeBody)
        (acceptingFin (runResumeToFinished (c5RCfg true chB) (c5RHello pub n)
          (earlySession ms) (resumeSh pay shBody)
          (earlyEe eeBody)))).fst.transcript.buffer
      = c5ResumeEntries chB n ms pay shBody eeBody)
    ∧ (runHrr hrrCfg hrrHello (hrrGoodMsg hrrBody)).fst.transcript.buffer =
        [SymBytes.mhash HashAlg.sha256
          (packEntries [SymBytes.msgEnc HType.clientHello (SymBytes.lit [1])]),
         SymBytes.msgEnc HType.helloRetryRequest hrrBody] := by
  have hkem := handleFinishedAccept
    (runKemtlsToFinished (c5Cfg a chB) (c5Hello pub n) (kemtlsSh pay shBody)
      (kemtlsEe eeBody) (kemtlsCp pk certBody)).fst
    (acceptingFin (runKemtlsToFinished (c5Cfg a chB) (c5Hello pub n)
      (kemtlsSh pay shBody) (kemtlsEe eeBody) (kemtlsCp pk certBody))) rfl
  have hcrq := handleFinishedAccept
    (runKemtlsCertReqToFinished (c5Cfg a chB) (c5Hello pub n) (kemtlsSh pay shBody)
      (kemtlsEe eeBody) (c5CertReq crBody) (kemtlsCp pk certBody)).fst
    (acceptingFin (runKemtlsCertReqToFinished (c5Cfg a chB) (c5Hello pub n)
      (kemtlsSh pay shBody) (kemtlsEe eeBody) (c5CertReq crBody)
      (kemtlsCp pk certBody))) rfl
  have hres := handleFinishedAccept
    (runResumeToFinished (c5RCfg false chB) (c5RHello pub n) (resumeSession ms)
      (resumeSh pay shBody) (resumeEe eeBody)).fst
    (acceptingFin (runResumeToFinished (c5RCfg false chB) (c5RHello pub n)
      (resumeSession ms) (resumeSh pay shBody) (resumeEe eeBody))) rfl
  have hearly := handleFinishedAccept
    (runResumeToFinished (c5RCfg true chB) (c5RHello pub n) (earlySession ms)
      (resumeSh pay shBody) (earlyEe eeBody)).fst
    (acceptingFin (runResumeToFinished (c5RCfg true chB) (c5RHello pub n)
      (earlySession ms) (resumeSh pay shBody) (earlyEe eeBody))) rfl
  refine ⟨⟨hkem.1, hkem.2.trans rfl, ?_⟩, ⟨hcrq.1, hcrq.2.trans rfl, ?_⟩,
    ⟨hres.1, hres.2.trans rfl, ?_⟩, ⟨hearly.1, hearly.2.trans rfl⟩, rfl⟩
  · unfold c5Entries
    simp [KeySchedule.derive, KeySchedule.deriveWithHash, KeySchedule.inputSecret,
      KeySchedule.inputEmpty, KeySchedule.new, packEntries]
  · unfold c5CertReqEntries
    simp [KeySchedule.derive, KeySchedule.deriveWithHash, KeySchedule.inputSecret,
      KeySchedule.inputEmpty, KeySchedule.new, packEntries]
  · unfold c5ResumeEntries
    simp [KeySchedule.derive, KeySchedule.inputSecret, KeySchedule.new, packEntries]

end Rustls
